import Mathlib

/-!
# tool_message: validation and dispatch of an outbound message

A shallow embedding of `main/tools/tool_message.c` (`validate_channel`,
`tool_message_execute`) together with the C library routines it calls
(`strcmp`, `strncpy`, `strdup`, `snprintf`), followed by the properties of the
specification stated over that embedding.

Conventions.
* A byte is a natural number; a C string is the list of bytes in front of its
  terminating NUL, hence a list without a zero byte (`CStr`).
* A `char[]` field of the message is a list of bytes of the field's size; the
  string stored in it is read back with `cstr_of`.
* The decoder, the allocator and the outbound queue are collaborators: their
  answers are the fields of `Env`.
* Every call records the statements it executes in a trace of `Event`s.
-/

namespace ToolMessage

/-! ## Bytes and C strings -/

/-- Bytes of a string literal made of ASCII characters. -/
def ascii (s : String) : List Nat := s.data.map Char.toNat

/-- A C string as seen through a `const char *`: the bytes before the NUL. -/
structure CStr where
  bytes : List Nat
  nonul : ∀ b ∈ bytes, b ≠ 0

namespace CStr

/-- The byte `s[i]`; the terminator sits right after the last byte. -/
def byte_at (s : CStr) (i : Nat) : Nat := (s.bytes ++ [0]).getD i 0

/-- The value of `strlen(s)`. -/
def strlen (s : CStr) : Nat := s.bytes.length

end CStr

/-- The string held in a character buffer: the bytes in front of the first NUL. -/
def cstr_of (buf : List Nat) : List Nat := buf.takeWhile (fun b => b != 0)

/-- The function `strcmp` on the bytes of two C strings: zero when they agree,
otherwise the difference of the first pair of bytes that differ (the
terminator counting as byte 0). -/
def strcmp : List Nat → List Nat → Int
  | [], [] => 0
  | [], b :: _ => 0 - (b : Int)
  | a :: _, [] => (a : Int)
  | a :: as, b :: bs => if a = b then strcmp as bs else (a : Int) - (b : Int)

/-- The call `strncpy(dst, src, n)`: the first `n` bytes of `src`, padded with
NULs up to `n` bytes when `src` is shorter; the rest of `dst` is untouched. -/
def strncpy (dst src : List Nat) (n : Nat) : List Nat :=
  (src.take n ++ List.replicate (n - src.length) 0) ++ dst.drop n

/-- The bytes `snprintf(buf, size, ...)` stores when the formatted text is
`line`: nothing for `size = 0`, otherwise the first `size - 1` bytes of `line`
followed by the terminator. -/
def snprintf_written (size : Nat) (line : List Nat) : List Nat :=
  if size = 0 then [] else line.take (size - 1) ++ [0]

/-- The buffer after `snprintf(buf, size, ...)` formatted `line` into it. -/
def snprintf (buf : List Nat) (size : Nat) (line : List Nat) : List Nat :=
  snprintf_written size line ++ buf.drop (snprintf_written size line).length

/-- Decimal digits of `n`, most significant first (`fuel` bounds the number of
digits). -/
def dec_digits : Nat → Nat → List Nat
  | 0, _ => []
  | fuel + 1, n =>
    if n < 10 then [48 + n] else dec_digits fuel (n / 10) ++ [48 + n % 10]

/-- The conversion `%d` of `printf`. -/
def fmt_d (i : Int) : List Nat :=
  if i < 0 then 45 :: dec_digits (i.natAbs + 1) i.natAbs
  else dec_digits (i.natAbs + 1) i.natAbs

/-- The cast `(int)` applied to a `size_t` (32-bit two's complement). -/
def int_of_size (n : Nat) : Int :=
  if n % 2 ^ 32 < 2 ^ 31 then ((n % 2 ^ 32 : Nat) : Int)
  else ((n % 2 ^ 32 : Nat) : Int) - 2 ^ 32

/-! ## Status codes (`esp_err.h`) -/

def ESP_OK : Int := 0
def ESP_ERR_NO_MEM : Int := 0x101
def ESP_ERR_INVALID_ARG : Int := 0x102

/-! ## Channel names (`bus/message_bus.h`) -/

/-- Modelled from the spec: the header `bus/message_bus.h` defining
`MIMI_CHAN_TELEGRAM` is not part of the sources at hand; the closed channel
set is written `telegram | websocket | feishu` in the interface. -/
def MIMI_CHAN_TELEGRAM : List Nat := ascii "telegram"

/-- Modelled from the spec: the header `bus/message_bus.h` defining
`MIMI_CHAN_WEBSOCKET` is not part of the sources at hand. -/
def MIMI_CHAN_WEBSOCKET : List Nat := ascii "websocket"

/-- Modelled from the spec: the header `bus/message_bus.h` defining
`MIMI_CHAN_FEISHU` is not part of the sources at hand. -/
def MIMI_CHAN_FEISHU : List Nat := ascii "feishu"

/-! ## Data model -/

/-- The three string fields looked up in the decoded record; `none` is the
null pointer `cJSON_GetStringValue` returns for an absent or non-string item. -/
structure Request where
  channel : Option CStr
  chat_id : Option CStr
  text : Option CStr

/-- The record `mimi_msg_t`: two character arrays and the owned body. -/
structure Msg where
  channel : List Nat
  chat_id : List Nat
  content : List Nat
deriving DecidableEq

/-- The fields of the decoded record. -/
inductive Field where
  | channel
  | chat_id
  | text
deriving DecidableEq

/-- What a formatted argument points into: a string of the decoded record, or
the body `msg.content` owned by the message. -/
inductive Operand where
  | record (f : Field)
  | msg_content
deriving DecidableEq

/-- The collaborators of one call and the sizes of the message fields. -/
structure Env where
  /-- The decoder `cJSON_Parse`: `none` is the null root. -/
  cJSON_Parse : List Nat → Option Request
  /-- Whether the allocator grants a block of the given size. -/
  malloc_ok : Nat → Bool
  /-- The outbound queue `message_bus_push_outbound`. -/
  message_bus_push_outbound : Msg → Int
  /-- The value of `sizeof(msg.channel)`. -/
  channel_size : Nat
  /-- The value of `sizeof(msg.chat_id)`. -/
  chat_id_size : Nat

/-- The call `strdup(s)`: a fresh copy of `s`, or null when the allocation of
`strlen(s) + 1` bytes fails. -/
def strdup (E : Env) (s : CStr) : Option (List Nat) :=
  if E.malloc_ok (s.strlen + 1) then some s.bytes else none

/-- The statements of `tool_message_execute` that touch a resource. -/
inductive Event where
  /-- The call `cJSON_Parse(input_json)` and whether it gave a record. -/
  | parse (ok : Bool)
  /-- A lookup `cJSON_GetStringValue(cJSON_GetObjectItem(root, f))`. -/
  | get (f : Field)
  /-- The test `!p || p[0] == 0` on a field. -/
  | test (f : Field)
  /-- The call `validate_channel(channel)`. -/
  | validate
  /-- A bounded copy of a field into the message. -/
  | strncpy (f : Field)
  /-- The call `strdup(text)` and whether it gave a block. -/
  | strdup (ok : Bool)
  /-- The call `message_bus_push_outbound(&msg)` and its return value. -/
  | push (msg : Msg) (ret : Int)
  /-- The call `free(msg.content)`. -/
  | free_content
  /-- A call of `snprintf` on the output buffer: the strings among its
  arguments and the formatted text. -/
  | snprintf (args : List Operand) (line : List Nat)
  /-- The log record `ESP_LOGI` and the strings among its arguments. -/
  | log (args : List Operand)
  /-- The call `cJSON_Delete(root)`. -/
  | delete
deriving DecidableEq

/-- What a call leaves behind: the return value, the output buffer and the
statements executed. -/
structure Result where
  status : Int
  output : List Nat
  trace : List Event
deriving DecidableEq

/-! ## The program -/

/-- The function `validate_channel`. -/
def validate_channel (channel : Option CStr) : Bool :=
  match channel with
  | none => false
  | some c =>
    strcmp c.bytes MIMI_CHAN_TELEGRAM == 0 ||
    strcmp c.bytes MIMI_CHAN_WEBSOCKET == 0 ||
    strcmp c.bytes MIMI_CHAN_FEISHU == 0

/-- The condition `!p || p[0] == 0`. -/
def null_or_empty (p : Option CStr) : Bool :=
  match p with
  | none => true
  | some s => s.byte_at 0 == 0

/-- The bytes `%s` prints for a pointer the code has checked to be non-null. -/
def str_arg (p : Option CStr) : List Nat :=
  match p with
  | none => []
  | some s => s.bytes

/-- The value of `strlen` on a pointer the code has checked to be non-null. -/
def len_arg (p : Option CStr) : Nat :=
  match p with
  | none => 0
  | some s => s.strlen

def line_invalid_json : List Nat := ascii "Error: invalid JSON input"

def line_missing_channel : List Nat := ascii "Error: missing or empty 'channel' field"

def line_invalid_channel (channel : List Nat) : List Nat :=
  ascii "Error: invalid channel '" ++ channel ++
    ascii "'. Must be one of: telegram, websocket, feishu"

def line_missing_chat_id : List Nat := ascii "Error: missing or empty 'chat_id' field"

def line_missing_text : List Nat := ascii "Error: missing or empty 'text' field"

def line_no_mem : List Nat := ascii "Error: out of memory"

def line_push_failed : List Nat := ascii "Error: failed to push message to outbound queue"

def line_ok (channel chat_id : List Nat) (n : Int) : List Nat :=
  ascii "OK: message sent to " ++ channel ++ ascii " chat_id=" ++ chat_id ++
    ascii " (" ++ fmt_d n ++ ascii " bytes)"

/-- The events of lines 24 to 32: a successful decode and the three lookups. -/
def trace_decoded : List Event :=
  [.parse true, .get .channel, .get .chat_id, .get .text]

/-- The message built by lines 61 to 64 once `strdup` has given `content`. -/
def build_msg (E : Env) (channel chat_id : List Nat) (content : List Nat) : Msg :=
  ⟨strncpy (List.replicate E.channel_size 0) channel (E.channel_size - 1),
   strncpy (List.replicate E.chat_id_size 0) chat_id (E.chat_id_size - 1),
   content⟩

/-- The function `tool_message_execute`, on the output buffer `output` of
capacity `output_size`. -/
def tool_message_execute (E : Env) (input_json output : List Nat)
    (output_size : Nat) : Result :=
  match E.cJSON_Parse input_json with
  | none =>
    ⟨ESP_ERR_INVALID_ARG, snprintf output output_size line_invalid_json,
      [.parse false, .snprintf [] line_invalid_json]⟩
  | some root =>
    let channel := root.channel
    let chat_id := root.chat_id
    let text := root.text
    if null_or_empty channel then
      ⟨ESP_ERR_INVALID_ARG, snprintf output output_size line_missing_channel,
        trace_decoded ++ [.test .channel, .snprintf [] line_missing_channel, .delete]⟩
    else if !validate_channel channel then
      ⟨ESP_ERR_INVALID_ARG,
        snprintf output output_size (line_invalid_channel (str_arg channel)),
        trace_decoded ++ [.test .channel, .validate,
          .snprintf [.record .channel] (line_invalid_channel (str_arg channel)), .delete]⟩
    else if null_or_empty chat_id then
      ⟨ESP_ERR_INVALID_ARG, snprintf output output_size line_missing_chat_id,
        trace_decoded ++ [.test .channel, .validate, .test .chat_id,
          .snprintf [] line_missing_chat_id, .delete]⟩
    else if null_or_empty text then
      ⟨ESP_ERR_INVALID_ARG, snprintf output output_size line_missing_text,
        trace_decoded ++ [.test .channel, .validate, .test .chat_id, .test .text,
          .snprintf [] line_missing_text, .delete]⟩
    else
      match text.bind (strdup E) with
      | none =>
        ⟨ESP_ERR_NO_MEM, snprintf output output_size line_no_mem,
          trace_decoded ++ [.test .channel, .validate, .test .chat_id, .test .text,
            .strncpy .channel, .strncpy .chat_id, .strdup false,
            .snprintf [] line_no_mem, .delete]⟩
      | some content =>
        let msg := build_msg E (str_arg channel) (str_arg chat_id) content
        let err := E.message_bus_push_outbound msg
        if err ≠ ESP_OK then
          ⟨err, snprintf output output_size line_push_failed,
            trace_decoded ++ [.test .channel, .validate, .test .chat_id, .test .text,
              .strncpy .channel, .strncpy .chat_id, .strdup true,
              .push msg err, .free_content,
              .snprintf [] line_push_failed, .delete]⟩
        else
          ⟨ESP_OK,
            snprintf output output_size
              (line_ok (str_arg channel) (str_arg chat_id) (int_of_size (len_arg text))),
            trace_decoded ++ [.test .channel, .validate, .test .chat_id, .test .text,
              .strncpy .channel, .strncpy .chat_id, .strdup true,
              .push msg err,
              .snprintf [.record .channel, .record .chat_id, .record .text]
                (line_ok (str_arg channel) (str_arg chat_id) (int_of_size (len_arg text))),
              .log [.record .channel, .record .chat_id, .record .text], .delete]⟩

/-! ## The results of the exit paths -/

/-- The events shared by every path that passes the four checks and both
bounded copies. -/
def trace_validated : List Event :=
  trace_decoded ++ [.test .channel, .validate, .test .chat_id, .test .text,
    .strncpy .channel, .strncpy .chat_id]

/-- Exit at line 27: the payload did not decode. -/
def res_parse_failed (output : List Nat) (size : Nat) : Result :=
  ⟨ESP_ERR_INVALID_ARG, snprintf output size line_invalid_json,
    [.parse false, .snprintf [] line_invalid_json]⟩

/-- Exit at line 37: no channel. -/
def res_missing_channel (output : List Nat) (size : Nat) : Result :=
  ⟨ESP_ERR_INVALID_ARG, snprintf output size line_missing_channel,
    trace_decoded ++ [.test .channel, .snprintf [] line_missing_channel, .delete]⟩

/-- Exit at line 45: the channel is not one of the three names. -/
def res_invalid_channel (output : List Nat) (size : Nat) (channel : List Nat) : Result :=
  ⟨ESP_ERR_INVALID_ARG, snprintf output size (line_invalid_channel channel),
    trace_decoded ++ [.test .channel, .validate,
      .snprintf [.record .channel] (line_invalid_channel channel), .delete]⟩

/-- Exit at line 51: no chat identifier. -/
def res_missing_chat_id (output : List Nat) (size : Nat) : Result :=
  ⟨ESP_ERR_INVALID_ARG, snprintf output size line_missing_chat_id,
    trace_decoded ++ [.test .channel, .validate, .test .chat_id,
      .snprintf [] line_missing_chat_id, .delete]⟩

/-- Exit at line 57: no text. -/
def res_missing_text (output : List Nat) (size : Nat) : Result :=
  ⟨ESP_ERR_INVALID_ARG, snprintf output size line_missing_text,
    trace_decoded ++ [.test .channel, .validate, .test .chat_id, .test .text,
      .snprintf [] line_missing_text, .delete]⟩

/-- Exit at line 69: `strdup` returned null. -/
def res_no_mem (output : List Nat) (size : Nat) : Result :=
  ⟨ESP_ERR_NO_MEM, snprintf output size line_no_mem,
    trace_validated ++ [.strdup false, .snprintf [] line_no_mem, .delete]⟩

/-- Exit at line 78: the queue returned `err`, which is not `ESP_OK`. -/
def res_rejected (output : List Nat) (size : Nat) (msg : Msg) (err : Int) : Result :=
  ⟨err, snprintf output size line_push_failed,
    trace_validated ++ [.strdup true, .push msg err, .free_content,
      .snprintf [] line_push_failed, .delete]⟩

/-- Exit at line 87: the queue accepted the message. -/
def res_accepted (output : List Nat) (size : Nat) (msg : Msg)
    (channel chat_id : List Nat) (n : Int) : Result :=
  ⟨ESP_OK, snprintf output size (line_ok channel chat_id n),
    trace_validated ++ [.strdup true, .push msg ESP_OK,
      .snprintf [.record .channel, .record .chat_id, .record .text]
        (line_ok channel chat_id n),
      .log [.record .channel, .record .chat_id, .record .text], .delete]⟩

/-! ## Observations on a trace -/

/-- The submissions of a trace: each message handed to the outbound queue with
the status the queue returned. -/
def pushes : List Event → List (Msg × Int)
  | [] => []
  | .push m ret :: t => (m, ret) :: pushes t
  | _ :: t => pushes t

/-- The texts formatted into the output buffer, one per `snprintf` call. -/
def lines : List Event → List (List Nat)
  | [] => []
  | .snprintf _ line :: t => line :: lines t
  | _ :: t => lines t

/-- Number of calls of `cJSON_Delete` in a trace. -/
def deletes : List Event → Nat
  | [] => 0
  | .delete :: t => deletes t + 1
  | _ :: t => deletes t

/-- Number of calls of `free(msg.content)` in a trace. -/
def frees : List Event → Nat
  | [] => 0
  | .free_content :: t => frees t + 1
  | _ :: t => frees t

/-- The statements executed after the queue accepted a message. -/
def after_accept : List Event → List Event
  | [] => []
  | .push _ ret :: t => if ret = ESP_OK then t else after_accept t
  | _ :: t => after_accept t

/-- The statements executed after the first call of `cJSON_Delete`. -/
def after_delete : List Event → List Event
  | [] => []
  | .delete :: t => t
  | _ :: t => after_delete t

/-- Whether a statement dereferences the decoded record or a string in it. -/
def Event.reads_record : Event → Bool
  | .get _ => true
  | .test _ => true
  | .validate => true
  | .strncpy _ => true
  | .strdup _ => true
  | .snprintf args _ => args.any (fun a => a != .msg_content)
  | .log args => args.any (fun a => a != .msg_content)
  | _ => false

/-- Whether a statement reads, hands off or frees the body `msg.content`. -/
def Event.uses_content : Event → Bool
  | .push _ _ => true
  | .free_content => true
  | .snprintf args _ => args.contains .msg_content
  | .log args => args.contains .msg_content
  | _ => false

/-! ## The rules of the specification -/

/-- The closed channel set of the specification. -/
def channel_set : List (List Nat) := [ascii "telegram", ascii "websocket", ascii "feishu"]

/-- A field is present and non-empty. -/
def present_nonempty (p : Option CStr) : Bool :=
  match p with
  | none => false
  | some s => decide (s.bytes ≠ [])

/-- The channel is a member of the closed set. -/
def in_channel_set (p : Option CStr) : Bool :=
  match p with
  | none => false
  | some s => decide (s.bytes ∈ channel_set)

/-- A well-formed request: the four rules of the validator hold. -/
def well_formed (r : Request) : Bool :=
  present_nonempty r.channel && in_channel_set r.channel &&
    present_nonempty r.chat_id && present_nonempty r.text

/-- A line-break character: line feed or carriage return. -/
def is_line_break (b : Nat) : Bool := b == 10 || b == 13

/-! ## Sample data -/

/-- The C string of an ASCII literal. -/
def lit (s : String) (h : ∀ b ∈ ascii s, b ≠ 0) : CStr := ⟨ascii s, h⟩

/-- A decoded request with all three fields present. -/
def request_of (channel chat_id text : CStr) : Request :=
  ⟨some channel, some chat_id, some text⟩

/-- An environment whose decoder answers `root` on every payload, with the
message fields of 16 and 32 bytes. -/
def sample_env (root : Option Request) (alloc : Bool) (ret : Int) : Env :=
  ⟨fun _ => root, fun _ => alloc, fun _ => ret, 16, 32⟩

def s_telegram : CStr := lit "telegram" (by decide)

def s_slack : CStr := lit "slack" (by decide)

def s_42 : CStr := lit "42" (by decide)

def s_hi : CStr := lit "hi" (by decide)

def s_empty : CStr := ⟨[], by simp⟩

/-- A chat identifier of 40 bytes. -/
def s_long : CStr := ⟨List.replicate 40 97, by simp⟩

/-- A chat identifier with a line feed in it. -/
def s_two_lines : CStr := ⟨[52, 10, 50], by decide⟩

def s_Telegram : CStr := lit "Telegram" (by decide)

def s_telegram_padded : CStr := lit " telegram " (by decide)

/-- The request of the first example of the specification. -/
def req_example : Request := request_of s_telegram s_42 s_hi

/-- The request of the second example of the specification. -/
def req_slack : Request := request_of s_slack s_42 s_hi

/-- An output buffer of 128 bytes holding arbitrary data. -/
def buf128 : List Nat := List.replicate 128 7

/-- Whether a call stops before submission: the payload does not decode, a
rule of the validator fails, or the copy of the text cannot be allocated. -/
def stage_failure (E : Env) (input : List Nat) : Bool :=
  match E.cJSON_Parse input with
  | none => true
  | some r =>
    !well_formed r ||
      (match r.text with
       | none => true
       | some t => !E.malloc_ok (t.strlen + 1))

end ToolMessage

/-! ## Lemmas on the C library model -/

namespace ToolMessage

theorem strcmp_eq_zero_iff (a b : List Nat) (ha : ∀ x ∈ a, x ≠ 0)
    (hb : ∀ x ∈ b, x ≠ 0) : strcmp a b = 0 ↔ a = b := by
  induction a generalizing b with
  | nil =>
    cases b with
    | nil => simp [strcmp]
    | cons y ys =>
      have hy : y ≠ 0 := hb y (by simp)
      simp only [strcmp]
      constructor
      · intro h; omega
      · intro h; cases h
  | cons x xs ih =>
    cases b with
    | nil =>
      have hx : x ≠ 0 := ha x (by simp)
      simp only [strcmp]
      constructor
      · intro h; omega
      · intro h; cases h
    | cons y ys =>
      simp only [strcmp]
      by_cases hxy : x = y
      · subst hxy
        have hxs : ∀ z ∈ xs, z ≠ 0 := fun z hz => ha z (by simp [hz])
        have hys : ∀ z ∈ ys, z ≠ 0 := fun z hz => hb z (by simp [hz])
        simp [ih ys hxs hys]
      · simp only [hxy, if_false]
        constructor
        · intro h; omega
        · intro h; cases h; exact absurd rfl hxy

theorem channel_names_nonul : ∀ s ∈ channel_set, ∀ x ∈ s, x ≠ 0 := by decide

theorem null_or_empty_eq (p : Option CStr) :
    null_or_empty p = !present_nonempty p := by
  cases p with
  | none => rfl
  | some s =>
    obtain ⟨bytes, h⟩ := s
    cases bytes with
    | nil => rfl
    | cons x xs =>
      have hx : x ≠ 0 := h x (by simp)
      simp [null_or_empty, present_nonempty, CStr.byte_at, hx]

theorem validate_channel_eq (p : Option CStr) :
    validate_channel p = in_channel_set p := by
  cases p with
  | none => rfl
  | some s =>
    have h1 := strcmp_eq_zero_iff s.bytes MIMI_CHAN_TELEGRAM s.nonul (by decide)
    have h2 := strcmp_eq_zero_iff s.bytes MIMI_CHAN_WEBSOCKET s.nonul (by decide)
    have h3 := strcmp_eq_zero_iff s.bytes MIMI_CHAN_FEISHU s.nonul (by decide)
    simp only [validate_channel, in_channel_set, channel_set]
    rw [Bool.eq_iff_iff]
    simp only [Bool.or_eq_true, beq_iff_eq, h1, h2, h3, decide_eq_true_eq,
      List.mem_cons, List.mem_singleton, List.not_mem_nil, or_false]
    simp only [MIMI_CHAN_TELEGRAM, MIMI_CHAN_WEBSOCKET, MIMI_CHAN_FEISHU, or_assoc]

theorem cstr_of_append_zero (s rest : List Nat) (hs : ∀ x ∈ s, x ≠ 0) :
    cstr_of (s ++ 0 :: rest) = s := by
  induction s with
  | nil => simp [cstr_of]
  | cons x xs ih =>
    have hx : x ≠ 0 := hs x (by simp)
    have hxs : ∀ z ∈ xs, z ≠ 0 := fun z hz => hs z (by simp [hz])
    have := ih hxs
    simp only [cstr_of] at this ⊢
    simp [List.takeWhile_cons, hx, this]

theorem strncpy_zeroed (cap : Nat) (src : List Nat) (hcap : 0 < cap) :
    strncpy (List.replicate cap 0) src (cap - 1) =
      src.take (cap - 1) ++ 0 :: List.replicate (cap - 1 - src.length) 0 := by
  have hdrop : (List.replicate cap 0).drop (cap - 1) = [0] := by
    rw [List.drop_replicate]
    have : cap - (cap - 1) = 1 := by omega
    rw [this]; rfl
  unfold strncpy
  rw [hdrop, List.append_assoc]
  congr 1
  have : List.replicate (cap - 1 - src.length) 0 ++ [0]
      = List.replicate (cap - 1 - src.length + 1) 0 := by
    rw [List.replicate_succ', ]
  rw [this, List.replicate_succ]

theorem cstr_of_strncpy (cap : Nat) (src : List Nat) (hcap : 0 < cap)
    (hs : ∀ x ∈ src, x ≠ 0) :
    cstr_of (strncpy (List.replicate cap 0) src (cap - 1)) = src.take (cap - 1) := by
  rw [strncpy_zeroed cap src hcap]
  exact cstr_of_append_zero _ _ (fun x hx => hs x (List.mem_of_mem_take hx))

theorem strncpy_length (cap : Nat) (src : List Nat) (hcap : 0 < cap) :
    (strncpy (List.replicate cap 0) src (cap - 1)).length = cap := by
  rw [strncpy_zeroed cap src hcap]
  simp only [List.length_append, List.length_take, List.length_cons, List.length_replicate]
  omega

end ToolMessage

/-! ## The exit paths of `tool_message_execute` -/

namespace ToolMessage

theorem present_nonempty_some (p : Option CStr) (h : present_nonempty p = true) :
    ∃ s, p = some s ∧ s.bytes ≠ [] := by
  cases p with
  | none => simp [present_nonempty] at h
  | some s => exact ⟨s, rfl, by simpa [present_nonempty] using h⟩

theorem exec_parse_failed (E : Env) (input output : List Nat) (size : Nat)
    (h : E.cJSON_Parse input = none) :
    tool_message_execute E input output size = res_parse_failed output size := by
  simp only [tool_message_execute, h, res_parse_failed]

theorem exec_missing_channel (E : Env) (input output : List Nat) (size : Nat)
    (r : Request) (h : E.cJSON_Parse input = some r)
    (h1 : present_nonempty r.channel = false) :
    tool_message_execute E input output size = res_missing_channel output size := by
  simp only [tool_message_execute, h, null_or_empty_eq, h1, Bool.not_false, if_true,
    res_missing_channel]

theorem exec_invalid_channel (E : Env) (input output : List Nat) (size : Nat)
    (r : Request) (h : E.cJSON_Parse input = some r)
    (h1 : present_nonempty r.channel = true) (h2 : in_channel_set r.channel = false) :
    tool_message_execute E input output size =
      res_invalid_channel output size (str_arg r.channel) := by
  simp [tool_message_execute, h, null_or_empty_eq, validate_channel_eq, h1, h2,
    res_invalid_channel]

theorem exec_missing_chat_id (E : Env) (input output : List Nat) (size : Nat)
    (r : Request) (h : E.cJSON_Parse input = some r)
    (h1 : present_nonempty r.channel = true) (h2 : in_channel_set r.channel = true)
    (h3 : present_nonempty r.chat_id = false) :
    tool_message_execute E input output size = res_missing_chat_id output size := by
  simp [tool_message_execute, h, null_or_empty_eq, validate_channel_eq, h1, h2, h3,
    res_missing_chat_id]

theorem exec_missing_text (E : Env) (input output : List Nat) (size : Nat)
    (r : Request) (h : E.cJSON_Parse input = some r)
    (h1 : present_nonempty r.channel = true) (h2 : in_channel_set r.channel = true)
    (h3 : present_nonempty r.chat_id = true) (h4 : present_nonempty r.text = false) :
    tool_message_execute E input output size = res_missing_text output size := by
  simp [tool_message_execute, h, null_or_empty_eq, validate_channel_eq, h1, h2, h3, h4,
    res_missing_text]

theorem exec_no_mem (E : Env) (input output : List Nat) (size : Nat)
    (r : Request) (text : CStr) (h : E.cJSON_Parse input = some r)
    (h1 : present_nonempty r.channel = true) (h2 : in_channel_set r.channel = true)
    (h3 : present_nonempty r.chat_id = true) (h4 : present_nonempty r.text = true)
    (ht : r.text = some text) (hm : E.malloc_ok (text.strlen + 1) = false) :
    tool_message_execute E input output size = res_no_mem output size := by
  rw [ht] at h4
  simp [tool_message_execute, h, null_or_empty_eq, validate_channel_eq, h1, h2, h3, h4,
    ht, strdup, hm, trace_validated, res_no_mem]

theorem exec_rejected (E : Env) (input output : List Nat) (size : Nat)
    (r : Request) (text : CStr) (h : E.cJSON_Parse input = some r)
    (h1 : present_nonempty r.channel = true) (h2 : in_channel_set r.channel = true)
    (h3 : present_nonempty r.chat_id = true) (h4 : present_nonempty r.text = true)
    (ht : r.text = some text) (hm : E.malloc_ok (text.strlen + 1) = true)
    (hp : E.message_bus_push_outbound
      (build_msg E (str_arg r.channel) (str_arg r.chat_id) text.bytes) ≠ ESP_OK) :
    tool_message_execute E input output size =
      res_rejected output size
        (build_msg E (str_arg r.channel) (str_arg r.chat_id) text.bytes)
        (E.message_bus_push_outbound
          (build_msg E (str_arg r.channel) (str_arg r.chat_id) text.bytes)) := by
  rw [ht] at h4
  simp [tool_message_execute, h, null_or_empty_eq, validate_channel_eq, h1, h2, h3, h4,
    ht, strdup, hm, trace_validated, hp, res_rejected]

theorem exec_accepted (E : Env) (input output : List Nat) (size : Nat)
    (r : Request) (text : CStr) (h : E.cJSON_Parse input = some r)
    (h1 : present_nonempty r.channel = true) (h2 : in_channel_set r.channel = true)
    (h3 : present_nonempty r.chat_id = true) (h4 : present_nonempty r.text = true)
    (ht : r.text = some text) (hm : E.malloc_ok (text.strlen + 1) = true)
    (hp : E.message_bus_push_outbound
      (build_msg E (str_arg r.channel) (str_arg r.chat_id) text.bytes) = ESP_OK) :
    tool_message_execute E input output size =
      res_accepted output size
        (build_msg E (str_arg r.channel) (str_arg r.chat_id) text.bytes)
        (str_arg r.channel) (str_arg r.chat_id) (int_of_size text.strlen) := by
  rw [ht] at h4
  simp [tool_message_execute, h, null_or_empty_eq, validate_channel_eq, h1, h2, h3, h4,
    ht, strdup, hm, trace_validated, hp, len_arg, res_accepted]

/-- Case analysis on the exit path taken by a call. -/
theorem exec_cases (P : Result → Prop) (E : Env) (input output : List Nat) (size : Nat)
    (hfail : E.cJSON_Parse input = none → P (res_parse_failed output size))
    (hmc : ∀ r, E.cJSON_Parse input = some r → present_nonempty r.channel = false →
      P (res_missing_channel output size))
    (hic : ∀ r c, E.cJSON_Parse input = some r → r.channel = some c → c.bytes ≠ [] →
      c.bytes ∉ channel_set → P (res_invalid_channel output size c.bytes))
    (hmi : ∀ r, E.cJSON_Parse input = some r → present_nonempty r.channel = true →
      in_channel_set r.channel = true → present_nonempty r.chat_id = false →
      P (res_missing_chat_id output size))
    (hmt : ∀ r, E.cJSON_Parse input = some r → present_nonempty r.channel = true →
      in_channel_set r.channel = true → present_nonempty r.chat_id = true →
      present_nonempty r.text = false → P (res_missing_text output size))
    (hnm : ∀ c i t, E.cJSON_Parse input = some (request_of c i t) →
      c.bytes ∈ channel_set → i.bytes ≠ [] → t.bytes ≠ [] →
      E.malloc_ok (t.strlen + 1) = false → P (res_no_mem output size))
    (hrej : ∀ c i t, E.cJSON_Parse input = some (request_of c i t) →
      c.bytes ∈ channel_set → i.bytes ≠ [] → t.bytes ≠ [] →
      E.malloc_ok (t.strlen + 1) = true →
      E.message_bus_push_outbound (build_msg E c.bytes i.bytes t.bytes) ≠ ESP_OK →
      P (res_rejected output size (build_msg E c.bytes i.bytes t.bytes)
        (E.message_bus_push_outbound (build_msg E c.bytes i.bytes t.bytes))))
    (hacc : ∀ c i t, E.cJSON_Parse input = some (request_of c i t) →
      c.bytes ∈ channel_set → i.bytes ≠ [] → t.bytes ≠ [] →
      E.malloc_ok (t.strlen + 1) = true →
      E.message_bus_push_outbound (build_msg E c.bytes i.bytes t.bytes) = ESP_OK →
      P (res_accepted output size (build_msg E c.bytes i.bytes t.bytes)
        c.bytes i.bytes (int_of_size t.strlen))) :
    P (tool_message_execute E input output size) := by
  rcases hparse : E.cJSON_Parse input with _ | r
  · rw [exec_parse_failed E input output size hparse]; exact hfail hparse
  by_cases h1 : present_nonempty r.channel = true
  swap
  · have h1f : present_nonempty r.channel = false := by simpa using h1
    rw [exec_missing_channel E input output size r hparse h1f]
    exact hmc r hparse h1f
  obtain ⟨c, hc, hcne⟩ := present_nonempty_some _ h1
  by_cases h2 : in_channel_set r.channel = true
  swap
  · have h2f : in_channel_set r.channel = false := by simpa using h2
    rw [exec_invalid_channel E input output size r hparse h1 h2f, hc]
    refine hic r c hparse hc hcne ?_
    simpa [hc, in_channel_set] using h2f
  have hcin : c.bytes ∈ channel_set := by simpa [hc, in_channel_set] using h2
  by_cases h3 : present_nonempty r.chat_id = true
  swap
  · have h3f : present_nonempty r.chat_id = false := by simpa using h3
    rw [exec_missing_chat_id E input output size r hparse h1 h2 h3f]
    exact hmi r hparse h1 h2 h3f
  obtain ⟨i, hi, hine⟩ := present_nonempty_some _ h3
  by_cases h4 : present_nonempty r.text = true
  swap
  · have h4f : present_nonempty r.text = false := by simpa using h4
    rw [exec_missing_text E input output size r hparse h1 h2 h3 h4f]
    exact hmt r hparse h1 h2 h3 h4f
  obtain ⟨t, ht, htne⟩ := present_nonempty_some _ h4
  have hr : r = request_of c i t := by
    cases r; simp only [request_of] at *; simp [hc, hi, ht]
  by_cases hm : E.malloc_ok (t.strlen + 1) = true
  swap
  · have hmf : E.malloc_ok (t.strlen + 1) = false := by simpa using hm
    rw [exec_no_mem E input output size r t hparse h1 h2 h3 h4 ht hmf]
    exact hnm c i t (hr ▸ hparse) hcin hine htne hmf
  by_cases hp : E.message_bus_push_outbound (build_msg E c.bytes i.bytes t.bytes) = ESP_OK
  · have hp2 : E.message_bus_push_outbound
        (build_msg E (str_arg r.channel) (str_arg r.chat_id) t.bytes) = ESP_OK := by
      simpa [hc, hi, str_arg] using hp
    rw [exec_accepted E input output size r t hparse h1 h2 h3 h4 ht hm hp2]
    simp only [hc, hi, str_arg]
    exact hacc c i t (hr ▸ hparse) hcin hine htne hm hp
  · have hp2 : E.message_bus_push_outbound
        (build_msg E (str_arg r.channel) (str_arg r.chat_id) t.bytes) ≠ ESP_OK := by
      simpa [hc, hi, str_arg] using hp
    rw [exec_rejected E input output size r t hparse h1 h2 h3 h4 ht hm hp2]
    simp only [hc, hi, str_arg]
    exact hrej c i t (hr ▸ hparse) hcin hine htne hm hp

end ToolMessage

/-! ## Lemmas on formatting -/

namespace ToolMessage

theorem digitChar_toNat (k : Nat) (hk : k < 10) : (Nat.digitChar k).toNat = 48 + k := by
  interval_cases k <;> rfl

theorem toDigitsCore_map (fuel n : Nat) (ds : List Char) :
    (Nat.toDigitsCore 10 fuel n ds).map Char.toNat = dec_digits fuel n ++ ds.map Char.toNat := by
  induction fuel generalizing n ds with
  | zero => simp [Nat.toDigitsCore, dec_digits]
  | succ f ih =>
    simp only [Nat.toDigitsCore, dec_digits]
    by_cases hn : n < 10
    · have h0 : n / 10 = 0 := by omega
      have hm : n % 10 = n := by omega
      simp [h0, hn, hm, digitChar_toNat n hn]
    · have h0 : n / 10 ≠ 0 := by omega
      simp only [h0, hn, if_false]
      rw [ih]
      simp [digitChar_toNat (n % 10) (by omega)]

/-- The digits printed by `%d` for a natural number are its decimal numeral. -/
theorem dec_digits_eq_repr (n : Nat) : dec_digits (n + 1) n = ascii (toString n) := by
  have h := toDigitsCore_map (n + 1) n []
  simp only [List.map_nil, List.append_nil] at h
  rw [← h]
  rfl

theorem fmt_d_ofNat (n : Nat) : fmt_d (n : Int) = ascii (toString n) := by
  have hn : ¬ ((n : Int) < 0) := by omega
  simp only [fmt_d, hn, if_false, Int.natAbs_ofNat]
  exact dec_digits_eq_repr n

theorem int_of_size_small (n : Nat) (h : n < 2 ^ 31) : int_of_size n = (n : Int) := by
  have h1 : n % 2 ^ 32 = n := Nat.mod_eq_of_lt (by omega)
  simp only [int_of_size, h1, h, if_true]

theorem dec_digits_range (fuel n : Nat) : ∀ b ∈ dec_digits fuel n, 48 ≤ b ∧ b ≤ 57 := by
  induction fuel generalizing n with
  | zero => simp [dec_digits]
  | succ f ih =>
    intro b hb
    simp only [dec_digits] at hb
    by_cases hn : n < 10
    · simp only [hn, if_true, List.mem_singleton] at hb
      omega
    · simp only [hn, if_false, List.mem_append, List.mem_singleton] at hb
      rcases hb with hb | hb
      · exact ih _ b hb
      · omega

theorem fmt_d_range (i : Int) : ∀ b ∈ fmt_d i, b = 45 ∨ (48 ≤ b ∧ b ≤ 57) := by
  intro b hb
  unfold fmt_d at hb
  split at hb
  · rcases List.mem_cons.mp hb with hb | hb
    · exact Or.inl hb
    · exact Or.inr (dec_digits_range _ _ b hb)
  · exact Or.inr (dec_digits_range _ _ b hb)

theorem snprintf_written_length (size : Nat) (line : List Nat) :
    (snprintf_written size line).length ≤ size := by
  unfold snprintf_written
  split
  · simp
  · simp only [List.length_append, List.length_take, List.length_singleton]
    omega

theorem snprintf_zero (buf line : List Nat) : snprintf buf 0 line = buf := by
  simp [snprintf, snprintf_written]

theorem snprintf_drop (buf line : List Nat) (size : Nat) :
    (snprintf buf size line).drop size = buf.drop size := by
  have hle := snprintf_written_length size line
  unfold snprintf
  rw [List.drop_append_eq_append_drop, List.drop_of_length_le hle, List.nil_append,
    List.drop_drop]
  congr 1
  omega

end ToolMessage

/-! ## Properties of the specification -/

namespace ToolMessage

theorem pushes_validated (t : List Event) : pushes (trace_validated ++ t) = pushes t := rfl

theorem lines_validated (t : List Event) : lines (trace_validated ++ t) = lines t := rfl

theorem deletes_validated (t : List Event) : deletes (trace_validated ++ t) = deletes t := rfl

theorem frees_validated (t : List Event) : frees (trace_validated ++ t) = frees t := rfl

theorem channel_set_ne_nil (s : List Nat) (h : s ∈ channel_set) : s ≠ [] := by
  intro h0; rw [h0] at h; revert h; decide

theorem wf_rules (c i t : CStr) (hch : c.bytes ∈ channel_set) (hid : i.bytes ≠ [])
    (htx : t.bytes ≠ []) :
    present_nonempty (request_of c i t).channel = true ∧
    in_channel_set (request_of c i t).channel = true ∧
    present_nonempty (request_of c i t).chat_id = true ∧
    present_nonempty (request_of c i t).text = true := by
  have := channel_set_ne_nil _ hch
  simp [request_of, present_nonempty, in_channel_set, hch, hid, htx, this]

theorem exec_wf_no_mem (E : Env) (input output : List Nat) (size : Nat) (c i t : CStr)
    (hparse : E.cJSON_Parse input = some (request_of c i t))
    (hch : c.bytes ∈ channel_set) (hid : i.bytes ≠ []) (htx : t.bytes ≠ [])
    (halloc : E.malloc_ok (t.strlen + 1) = false) :
    tool_message_execute E input output size = res_no_mem output size := by
  obtain ⟨h1, h2, h3, h4⟩ := wf_rules c i t hch hid htx
  exact exec_no_mem E input output size (request_of c i t) t hparse h1 h2 h3 h4 rfl halloc

theorem exec_wf_rejected (E : Env) (input output : List Nat) (size : Nat) (c i t : CStr)
    (hparse : E.cJSON_Parse input = some (request_of c i t))
    (hch : c.bytes ∈ channel_set) (hid : i.bytes ≠ []) (htx : t.bytes ≠ [])
    (halloc : E.malloc_ok (t.strlen + 1) = true)
    (hpush : E.message_bus_push_outbound (build_msg E c.bytes i.bytes t.bytes) ≠ ESP_OK) :
    tool_message_execute E input output size =
      res_rejected output size (build_msg E c.bytes i.bytes t.bytes)
        (E.message_bus_push_outbound (build_msg E c.bytes i.bytes t.bytes)) := by
  obtain ⟨h1, h2, h3, h4⟩ := wf_rules c i t hch hid htx
  have hp : E.message_bus_push_outbound
      (build_msg E (str_arg (request_of c i t).channel)
        (str_arg (request_of c i t).chat_id) t.bytes) ≠ ESP_OK := hpush
  have h := exec_rejected E input output size (request_of c i t) t hparse h1 h2 h3 h4 rfl
    halloc hp
  rw [h]
  rfl

theorem exec_wf_accepted (E : Env) (input output : List Nat) (size : Nat) (c i t : CStr)
    (hparse : E.cJSON_Parse input = some (request_of c i t))
    (hch : c.bytes ∈ channel_set) (hid : i.bytes ≠ []) (htx : t.bytes ≠ [])
    (halloc : E.malloc_ok (t.strlen + 1) = true)
    (hpush : E.message_bus_push_outbound (build_msg E c.bytes i.bytes t.bytes) = ESP_OK) :
    tool_message_execute E input output size =
      res_accepted output size (build_msg E c.bytes i.bytes t.bytes)
        c.bytes i.bytes (int_of_size t.strlen) := by
  obtain ⟨h1, h2, h3, h4⟩ := wf_rules c i t hch hid htx
  have hp : E.message_bus_push_outbound
      (build_msg E (str_arg (request_of c i t).channel)
        (str_arg (request_of c i t).chat_id) t.bytes) = ESP_OK := hpush
  have h := exec_accepted E input output size (request_of c i t) t hparse h1 h2 h3 h4 rfl
    halloc hp
  rw [h]
  rfl

/-- C1: a well-formed request whose body is allocated and accepted by the
queue is submitted exactly once with `content` equal to `text`; the call
returns `ESP_OK` and formats
`OK: message sent to <channel> chat_id=<chat_id> (<N> bytes)` where `N` is the
decimal byte length of `text`. -/
theorem C1_well_formed_request_is_sent (E : Env) (input output : List Nat) (size : Nat)
    (channel chat_id text : CStr)
    (hparse : E.cJSON_Parse input = some (request_of channel chat_id text))
    (hch : channel.bytes ∈ channel_set) (hid : chat_id.bytes ≠ [])
    (htx : text.bytes ≠ []) (hlen : text.strlen < 2 ^ 31)
    (halloc : E.malloc_ok (text.strlen + 1) = true)
    (hpush : E.message_bus_push_outbound
      (build_msg E channel.bytes chat_id.bytes text.bytes) = ESP_OK) :
    (tool_message_execute E input output size).status = ESP_OK ∧
    pushes (tool_message_execute E input output size).trace =
      [(build_msg E channel.bytes chat_id.bytes text.bytes, ESP_OK)] ∧
    (build_msg E channel.bytes chat_id.bytes text.bytes).content = text.bytes ∧
    lines (tool_message_execute E input output size).trace =
      [ascii "OK: message sent to " ++ channel.bytes ++ ascii " chat_id=" ++
        chat_id.bytes ++ ascii " (" ++ ascii (toString text.bytes.length) ++
        ascii " bytes)"] ∧
    (tool_message_execute E input output size).output =
      snprintf output size
        (ascii "OK: message sent to " ++ channel.bytes ++ ascii " chat_id=" ++
          chat_id.bytes ++ ascii " (" ++ ascii (toString text.bytes.length) ++
          ascii " bytes)") := by
  have hfmt : fmt_d (int_of_size text.strlen) = ascii (toString text.bytes.length) := by
    rw [int_of_size_small _ hlen, fmt_d_ofNat]; rfl
  rw [exec_wf_accepted E input output size channel chat_id text hparse hch hid htx halloc
    hpush]
  simp only [res_accepted, pushes_validated, lines_validated, pushes, lines, line_ok,
    hfmt, build_msg, and_self]

/-- C1, on the example of the specification:
`{"channel":"telegram","chat_id":"42","text":"hi"}` gives success and
`OK: message sent to telegram chat_id=42 (2 bytes)`. -/
theorem C1_witness :
    (tool_message_execute (sample_env (some req_example) true 0) [] buf128 128).status
      = ESP_OK ∧
    cstr_of (tool_message_execute (sample_env (some req_example) true 0) [] buf128 128).output
      = ascii "OK: message sent to telegram chat_id=42 (2 bytes)" := by
  have h := C1_well_formed_request_is_sent (sample_env (some req_example) true 0) []
    buf128 128 s_telegram s_42 s_hi rfl (by decide) (by decide) (by decide) (by decide)
    rfl rfl
  refine ⟨h.1, ?_⟩
  rw [h.2.2.2.2]
  decide

end ToolMessage

namespace ToolMessage

theorem line_invalid_channel_take (v : List Nat) :
    (line_invalid_channel v).take 8 = ascii "Error: i" := by
  unfold line_invalid_channel
  rw [List.append_assoc, List.take_append_of_le_length (by decide)]
  decide

theorem line_ok_take (c i : List Nat) (n : Int) :
    (line_ok c i n).take 8 = ascii "OK: mess" := by
  unfold line_ok
  simp only [List.append_assoc]
  rw [List.take_append_of_le_length (by decide)]
  decide

theorem ne_of_take_ne (n : Nat) (a b : List Nat) (h : a.take n ≠ b.take n) : a ≠ b :=
  fun hab => h (by rw [hab])

theorem line_invalid_channel_ne (v l : List Nat) (h : l.take 8 ≠ ascii "Error: i") :
    line_invalid_channel v ≠ l :=
  ne_of_take_ne 8 _ _ (by rw [line_invalid_channel_take]; exact fun e => h e.symm)

theorem line_ok_ne (c i : List Nat) (n : Int) (l : List Nat)
    (h : l.take 8 ≠ ascii "OK: mess") : line_ok c i n ≠ l :=
  ne_of_take_ne 8 _ _ (by rw [line_ok_take]; exact fun e => h e.symm)

/-- C2: for a decoded request the diagnostic is the one of the first violated
rule in the order channel present, channel in the closed set, chat_id present,
text present; the diagnostic of a rule appears exactly when that rule fails
and all earlier rules hold, and the call goes on to build the message exactly
when the four rules hold. -/
theorem C2_first_violated_rule (E : Env) (input output : List Nat) (size : Nat)
    (r : Request) (hparse : E.cJSON_Parse input = some r) :
    (lines (tool_message_execute E input output size).trace = [line_missing_channel] ↔
      present_nonempty r.channel = false) ∧
    (lines (tool_message_execute E input output size).trace =
        [line_invalid_channel (str_arg r.channel)] ↔
      present_nonempty r.channel = true ∧ in_channel_set r.channel = false) ∧
    (lines (tool_message_execute E input output size).trace = [line_missing_chat_id] ↔
      present_nonempty r.channel = true ∧ in_channel_set r.channel = true ∧
        present_nonempty r.chat_id = false) ∧
    (lines (tool_message_execute E input output size).trace = [line_missing_text] ↔
      present_nonempty r.channel = true ∧ in_channel_set r.channel = true ∧
        present_nonempty r.chat_id = true ∧ present_nonempty r.text = false) ∧
    (Event.strncpy Field.channel ∈ (tool_message_execute E input output size).trace ↔
      well_formed r = true) := by
  have hic1 := line_invalid_channel_ne (str_arg r.channel) line_missing_channel (by decide)
  have hic2 := line_invalid_channel_ne (str_arg r.channel) line_missing_chat_id (by decide)
  have hic3 := line_invalid_channel_ne (str_arg r.channel) line_missing_text (by decide)
  have hic4 := line_invalid_channel_ne (str_arg r.channel) line_no_mem (by decide)
  have hic5 := line_invalid_channel_ne (str_arg r.channel) line_push_failed (by decide)
  have h12 : line_missing_channel ≠ line_missing_chat_id := by decide
  have h13 : line_missing_channel ≠ line_missing_text := by decide
  have h23 : line_missing_chat_id ≠ line_missing_text := by decide
  have hn1 : line_no_mem ≠ line_missing_channel := by decide
  have hn2 : line_no_mem ≠ line_missing_chat_id := by decide
  have hn3 : line_no_mem ≠ line_missing_text := by decide
  have hp1 : line_push_failed ≠ line_missing_channel := by decide
  have hp2 : line_push_failed ≠ line_missing_chat_id := by decide
  have hp3 : line_push_failed ≠ line_missing_text := by decide
  refine exec_cases (fun res =>
    (lines res.trace = [line_missing_channel] ↔ present_nonempty r.channel = false) ∧
    (lines res.trace = [line_invalid_channel (str_arg r.channel)] ↔
      present_nonempty r.channel = true ∧ in_channel_set r.channel = false) ∧
    (lines res.trace = [line_missing_chat_id] ↔
      present_nonempty r.channel = true ∧ in_channel_set r.channel = true ∧
        present_nonempty r.chat_id = false) ∧
    (lines res.trace = [line_missing_text] ↔
      present_nonempty r.channel = true ∧ in_channel_set r.channel = true ∧
        present_nonempty r.chat_id = true ∧ present_nonempty r.text = false) ∧
    (Event.strncpy Field.channel ∈ res.trace ↔ well_formed r = true))
    E input output size ?_ ?_ ?_ ?_ ?_ ?_ ?_ ?_
  · intro h; rw [hparse] at h; cases h
  · intro r1 h h1
    rw [hparse] at h; cases h
    simp [res_missing_channel, lines, trace_decoded, h1, well_formed,
      hic1, hic2, hic3, hic4, hic5, h12, h13, h23, hn1, hn2, hn3, hp1, hp2, hp3,
      hic1.symm, hic2.symm, hic3.symm, hic4.symm, hic5.symm, h12.symm, h13.symm, h23.symm,
      hn1.symm, hn2.symm, hn3.symm, hp1.symm, hp2.symm, hp3.symm]
  · intro r1 c h hc hne hnin
    rw [hparse] at h; cases h
    have h1 : present_nonempty r.channel = true := by simp [hc, present_nonempty, hne]
    have h2 : in_channel_set r.channel = false := by simp [hc, in_channel_set, hnin]
    have e : str_arg r.channel = c.bytes := by simp [hc, str_arg]
    rw [e] at hic1 hic2 hic3
    simp [res_invalid_channel, lines, trace_decoded, h1, h2, well_formed, e, hic1, hic2, hic3,
      hic1.symm, hic2.symm, hic3.symm]
  · intro r1 h h1 h2 h3
    rw [hparse] at h; cases h
    simp [res_missing_chat_id, lines, trace_decoded, h1, h2, h3, well_formed,
      hic1, hic2, hic3, hic4, hic5, h12, h13, h23, hn1, hn2, hn3, hp1, hp2, hp3,
      hic1.symm, hic2.symm, hic3.symm, hic4.symm, hic5.symm, h12.symm, h13.symm, h23.symm,
      hn1.symm, hn2.symm, hn3.symm, hp1.symm, hp2.symm, hp3.symm]
  · intro r1 h h1 h2 h3 h4
    rw [hparse] at h; cases h
    simp [res_missing_text, lines, trace_decoded, h1, h2, h3, h4, well_formed,
      hic1, hic2, hic3, hic4, hic5, h12, h13, h23, hn1, hn2, hn3, hp1, hp2, hp3,
      hic1.symm, hic2.symm, hic3.symm, hic4.symm, hic5.symm, h12.symm, h13.symm, h23.symm,
      hn1.symm, hn2.symm, hn3.symm, hp1.symm, hp2.symm, hp3.symm]
  · intro c i t h hch hid htx hm
    rw [hparse] at h; cases h
    obtain ⟨h1, h2, h3, h4⟩ := wf_rules c i t hch hid htx
    simp [res_no_mem, lines, trace_decoded, trace_validated, h1, h2, h3, h4, well_formed,
      hic1, hic2, hic3, hic4, hic5, h12, h13, h23, hn1, hn2, hn3, hp1, hp2, hp3,
      hic1.symm, hic2.symm, hic3.symm, hic4.symm, hic5.symm, h12.symm, h13.symm, h23.symm,
      hn1.symm, hn2.symm, hn3.symm, hp1.symm, hp2.symm, hp3.symm]
  · intro c i t h hch hid htx hm hp
    rw [hparse] at h; cases h
    obtain ⟨h1, h2, h3, h4⟩ := wf_rules c i t hch hid htx
    simp [res_rejected, lines, trace_decoded, trace_validated, h1, h2, h3, h4, well_formed,
      hic1, hic2, hic3, hic4, hic5, h12, h13, h23, hn1, hn2, hn3, hp1, hp2, hp3,
      hic1.symm, hic2.symm, hic3.symm, hic4.symm, hic5.symm, h12.symm, h13.symm, h23.symm,
      hn1.symm, hn2.symm, hn3.symm, hp1.symm, hp2.symm, hp3.symm]
  · intro c i t h hch hid htx hm hp
    rw [hparse] at h; cases h
    obtain ⟨h1, h2, h3, h4⟩ := wf_rules c i t hch hid htx
    have o1 := line_ok_ne c.bytes i.bytes (int_of_size t.strlen) line_missing_channel
      (by decide)
    have o2 := line_ok_ne c.bytes i.bytes (int_of_size t.strlen) line_missing_chat_id
      (by decide)
    have o3 := line_ok_ne c.bytes i.bytes (int_of_size t.strlen) line_missing_text
      (by decide)
    have o4 : line_ok c.bytes i.bytes (int_of_size t.strlen) ≠
        line_invalid_channel (str_arg (request_of c i t).channel) :=
      ne_of_take_ne 8 _ _ (by rw [line_ok_take, line_invalid_channel_take]; decide)
    simp [res_accepted, lines, trace_decoded, trace_validated, h1, h2, h3, h4, well_formed,
      o1, o2, o3, o4, o1.symm, o2.symm, o3.symm, o4.symm]

/-- C2, on the request `{"channel":"slack"}`: rule 2 is the first to fail and
its diagnostic is reported although rules 3 and 4 fail as well. -/
theorem C2_witness :
    lines (tool_message_execute (sample_env (some ⟨some s_slack, none, none⟩) true 0) []
      buf128 128).trace = [line_invalid_channel s_slack.bytes] :=
  ((C2_first_violated_rule (sample_env (some ⟨some s_slack, none, none⟩) true 0) []
    buf128 128 ⟨some s_slack, none, none⟩ rfl).2.1).2 ⟨by decide, by decide⟩

end ToolMessage

namespace ToolMessage

/-- C3, refuted as stated: in `{"channel":"slack","text":"hi"}` the field
`chat_id` is absent, yet the line written is the invalid-channel diagnostic
and not `Error: missing or empty 'chat_id' field`. -/
theorem C3_counterexample :
    present_nonempty (Request.mk (some s_slack) none (some s_hi)).chat_id = false ∧
    cstr_of (tool_message_execute
        (sample_env (some ⟨some s_slack, none, some s_hi⟩) true 0) [] buf128 128).output
      = ascii "Error: invalid channel 'slack'. Must be one of: telegram, websocket, feishu" ∧
    cstr_of (tool_message_execute
        (sample_env (some ⟨some s_slack, none, some s_hi⟩) true 0) [] buf128 128).output
      ≠ ascii "Error: missing or empty 'chat_id' field" := by
  decide

/-- C3 (amended): for a decoded request in which channel, chat_id or text is
absent or empty the call returns `ESP_ERR_INVALID_ARG` and submits nothing;
the line written is `Error: missing or empty '<field>' field` for the first
such field in the order channel, chat_id, text, except that a channel which is
present, non-empty and outside the closed set gives the invalid-channel
diagnostic instead. -/
theorem C3_missing_field_amended (E : Env) (input output : List Nat) (size : Nat)
    (r : Request) (hparse : E.cJSON_Parse input = some r)
    (hmiss : present_nonempty r.channel = false ∨ present_nonempty r.chat_id = false ∨
      present_nonempty r.text = false) :
    (tool_message_execute E input output size).status = ESP_ERR_INVALID_ARG ∧
    pushes (tool_message_execute E input output size).trace = [] ∧
    lines (tool_message_execute E input output size).trace =
      [if present_nonempty r.channel = false then
          ascii "Error: missing or empty 'channel' field"
        else if in_channel_set r.channel = false then
          ascii "Error: invalid channel '" ++ str_arg r.channel ++
            ascii "'. Must be one of: telegram, websocket, feishu"
        else if present_nonempty r.chat_id = false then
          ascii "Error: missing or empty 'chat_id' field"
        else ascii "Error: missing or empty 'text' field"] ∧
    (tool_message_execute E input output size).output =
      snprintf output size
        (if present_nonempty r.channel = false then
          ascii "Error: missing or empty 'channel' field"
        else if in_channel_set r.channel = false then
          ascii "Error: invalid channel '" ++ str_arg r.channel ++
            ascii "'. Must be one of: telegram, websocket, feishu"
        else if present_nonempty r.chat_id = false then
          ascii "Error: missing or empty 'chat_id' field"
        else ascii "Error: missing or empty 'text' field") := by
  by_cases h1 : present_nonempty r.channel = true
  swap
  · have h1f : present_nonempty r.channel = false := by simpa using h1
    rw [exec_missing_channel E input output size r hparse h1f]
    simp [res_missing_channel, pushes, lines, trace_decoded, h1f, line_missing_channel]
  by_cases h2 : in_channel_set r.channel = true
  swap
  · have h2f : in_channel_set r.channel = false := by simpa using h2
    rw [exec_invalid_channel E input output size r hparse h1 h2f]
    simp [res_invalid_channel, pushes, lines, trace_decoded, h1, h2f, line_invalid_channel]
  by_cases h3 : present_nonempty r.chat_id = true
  swap
  · have h3f : present_nonempty r.chat_id = false := by simpa using h3
    rw [exec_missing_chat_id E input output size r hparse h1 h2 h3f]
    simp [res_missing_chat_id, pushes, lines, trace_decoded, h1, h2, h3f,
      line_missing_chat_id]
  have h4f : present_nonempty r.text = false := by
    rcases hmiss with h | h | h
    · rw [h1] at h; cases h
    · rw [h3] at h; cases h
    · exact h
  rw [exec_missing_text E input output size r hparse h1 h2 h3 h4f]
  simp [res_missing_text, pushes, lines, trace_decoded, h1, h2, h3, line_missing_text]

/-- C3 (amended), on `{"channel":"telegram","chat_id":"","text":"hi"}`: the
empty `chat_id` is the first missing field and is the one named. -/
theorem C3_amended_witness :
    (tool_message_execute
        (sample_env (some ⟨some s_telegram, some s_empty, some s_hi⟩) true 0) []
        buf128 128).status = ESP_ERR_INVALID_ARG ∧
    lines (tool_message_execute
        (sample_env (some ⟨some s_telegram, some s_empty, some s_hi⟩) true 0) []
        buf128 128).trace = [ascii "Error: missing or empty 'chat_id' field"] := by
  have h := C3_missing_field_amended
    (sample_env (some ⟨some s_telegram, some s_empty, some s_hi⟩) true 0) [] buf128 128
    ⟨some s_telegram, some s_empty, some s_hi⟩ rfl (Or.inr (Or.inl (by decide)))
  exact ⟨h.1, h.2.2.1.trans (by decide)⟩

/-- C4, refuted as stated: the empty string is a channel value outside the
closed set, yet `{"channel":"","chat_id":"42","text":"hi"}` is answered with
`Error: missing or empty 'channel' field`, not with the invalid-channel
diagnostic. -/
theorem C4_counterexample :
    s_empty.bytes ∉ channel_set ∧
    cstr_of (tool_message_execute
        (sample_env (some ⟨some s_empty, some s_42, some s_hi⟩) true 0) [] buf128 128).output
      = ascii "Error: missing or empty 'channel' field" ∧
    cstr_of (tool_message_execute
        (sample_env (some ⟨some s_empty, some s_42, some s_hi⟩) true 0) [] buf128 128).output
      ≠ ascii "Error: invalid channel ''. Must be one of: telegram, websocket, feishu" := by
  decide

/-- C4 (amended): for a decoded request whose channel value is non-empty and
outside the closed set, whatever chat_id and text are, the call returns
`ESP_ERR_INVALID_ARG`, formats
`Error: invalid channel '<value>'. Must be one of: telegram, websocket, feishu`
with the channel value verbatim, and submits nothing. -/
theorem C4_invalid_channel_amended (E : Env) (input output : List Nat) (size : Nat)
    (channel : CStr) (chat_id text : Option CStr)
    (hparse : E.cJSON_Parse input = some ⟨some channel, chat_id, text⟩)
    (hne : channel.bytes ≠ []) (hout : channel.bytes ∉ channel_set) :
    (tool_message_execute E input output size).status = ESP_ERR_INVALID_ARG ∧
    pushes (tool_message_execute E input output size).trace = [] ∧
    lines (tool_message_execute E input output size).trace =
      [ascii "Error: invalid channel '" ++ channel.bytes ++
        ascii "'. Must be one of: telegram, websocket, feishu"] ∧
    (tool_message_execute E input output size).output =
      snprintf output size
        (ascii "Error: invalid channel '" ++ channel.bytes ++
          ascii "'. Must be one of: telegram, websocket, feishu") := by
  have h1 : present_nonempty (Request.mk (some channel) chat_id text).channel = true := by
    simp [present_nonempty, hne]
  have h2 : in_channel_set (Request.mk (some channel) chat_id text).channel = false := by
    simp [in_channel_set, hout]
  rw [exec_invalid_channel E input output size _ hparse h1 h2]
  simp [res_invalid_channel, pushes, lines, trace_decoded, line_invalid_channel, str_arg]

/-- C4 (amended), on the example of the specification:
`{"channel":"slack","chat_id":"42","text":"hi"}` gives
`Error: invalid channel 'slack'. Must be one of: telegram, websocket, feishu`. -/
theorem C4_amended_witness :
    (tool_message_execute (sample_env (some req_slack) true 0) [] buf128 128).status
      = ESP_ERR_INVALID_ARG ∧
    cstr_of (tool_message_execute (sample_env (some req_slack) true 0) [] buf128 128).output
      = ascii "Error: invalid channel 'slack'. Must be one of: telegram, websocket, feishu" := by
  have h := C4_invalid_channel_amended (sample_env (some req_slack) true 0) [] buf128 128
    s_slack (some s_42) (some s_hi) rfl (by decide) (by decide)
  refine ⟨h.1, ?_⟩
  rw [h.2.2.2]
  decide

end ToolMessage

namespace ToolMessage

theorem channel_set_length : ∀ s ∈ channel_set, s.length ≤ 9 := by decide

theorem stored_channel (E : Env) (c i t : CStr) (hcs : c.strlen < E.channel_size) :
    cstr_of (build_msg E c.bytes i.bytes t.bytes).channel = c.bytes := by
  have hpos : 0 < E.channel_size := by omega
  simp only [build_msg]
  rw [cstr_of_strncpy _ _ hpos c.nonul]
  exact List.take_of_length_le (by simp only [CStr.strlen] at hcs; omega)

theorem stored_chat_id (E : Env) (c i t : CStr) (hpos : 0 < E.chat_id_size) :
    cstr_of (build_msg E c.bytes i.bytes t.bytes).chat_id =
      i.bytes.take (E.chat_id_size - 1) := by
  simp only [build_msg]
  exact cstr_of_strncpy _ _ hpos i.nonul

/-- C5: every message handed to the outbound queue holds, after the bounded
copies, a channel of the closed set, a non-empty chat_id and a non-empty
content (the channel field has room for the longest channel name and the
chat_id field for at least one byte in front of the terminator). -/
theorem C5_submitted_message_invariant (E : Env) (input output : List Nat) (size : Nat)
    (hcs : 10 ≤ E.channel_size) (his : 2 ≤ E.chat_id_size) :
    ∀ msg ret, (msg, ret) ∈ pushes (tool_message_execute E input output size).trace →
      cstr_of msg.channel ∈ channel_set ∧ cstr_of msg.chat_id ≠ [] ∧ msg.content ≠ [] := by
  have key : ∀ c i t : CStr, c.bytes ∈ channel_set → i.bytes ≠ [] → t.bytes ≠ [] →
      cstr_of (build_msg E c.bytes i.bytes t.bytes).channel ∈ channel_set ∧
      cstr_of (build_msg E c.bytes i.bytes t.bytes).chat_id ≠ [] ∧
      (build_msg E c.bytes i.bytes t.bytes).content ≠ [] := by
    intro c i t hch hid htx
    have hl := channel_set_length _ hch
    rw [stored_channel E c i t (by simp only [CStr.strlen]; omega),
      stored_chat_id E c i t (by omega)]
    refine ⟨hch, ?_, htx⟩
    intro h
    have hlen := congrArg List.length h
    simp only [List.length_take, List.length_nil] at hlen
    have : 0 < i.bytes.length := List.length_pos.mpr hid
    omega
  refine exec_cases (fun res => ∀ msg ret, (msg, ret) ∈ pushes res.trace →
      cstr_of msg.channel ∈ channel_set ∧ cstr_of msg.chat_id ≠ [] ∧ msg.content ≠ [])
    E input output size ?_ ?_ ?_ ?_ ?_ ?_ ?_ ?_
  · intro _ msg ret h; simp [res_parse_failed, pushes] at h
  · intro _ _ _ msg ret h; simp [res_missing_channel, pushes, trace_decoded] at h
  · intro _ _ _ _ _ _ msg ret h; simp [res_invalid_channel, pushes, trace_decoded] at h
  · intro _ _ _ _ _ msg ret h; simp [res_missing_chat_id, pushes, trace_decoded] at h
  · intro _ _ _ _ _ _ msg ret h; simp [res_missing_text, pushes, trace_decoded] at h
  · intro _ _ _ _ _ _ _ _ msg ret h
    simp [res_no_mem, pushes, trace_decoded, trace_validated] at h
  · intro c i t _ hch hid htx _ _ msg ret h
    simp only [res_rejected, pushes_validated, pushes, List.mem_singleton,
      Prod.mk.injEq] at h
    rw [h.1]
    exact key c i t hch hid htx
  · intro c i t _ hch hid htx _ _ msg ret h
    simp only [res_accepted, pushes_validated, pushes, List.mem_singleton,
      Prod.mk.injEq] at h
    rw [h.1]
    exact key c i t hch hid htx

/-- C5, on the example request with fields of 16 and 32 bytes: the message
submitted stores `telegram` and `42`. -/
theorem C5_witness :
    cstr_of (build_msg (sample_env (some req_example) true 0) s_telegram.bytes s_42.bytes
      s_hi.bytes).channel ∈ channel_set ∧
    cstr_of (build_msg (sample_env (some req_example) true 0) s_telegram.bytes s_42.bytes
      s_hi.bytes).chat_id ≠ [] ∧
    (build_msg (sample_env (some req_example) true 0) s_telegram.bytes s_42.bytes
      s_hi.bytes).content ≠ [] :=
  C5_submitted_message_invariant (sample_env (some req_example) true 0) [] buf128 128
    (by decide) (by decide)
    (build_msg (sample_env (some req_example) true 0) s_telegram.bytes s_42.bytes s_hi.bytes)
    0 (by decide)

/-- C6: when the queue rejects the message of a well-formed request with a
status `e` other than `ESP_OK`, the call returns exactly `e`, formats
`Error: failed to push message to outbound queue` and has called the queue
exactly once. -/
theorem C6_rejection_is_propagated (E : Env) (input output : List Nat) (size : Nat)
    (channel chat_id text : CStr) (e : Int)
    (hparse : E.cJSON_Parse input = some (request_of channel chat_id text))
    (hch : channel.bytes ∈ channel_set) (hid : chat_id.bytes ≠ [])
    (htx : text.bytes ≠ [])
    (halloc : E.malloc_ok (text.strlen + 1) = true)
    (hpush : E.message_bus_push_outbound
      (build_msg E channel.bytes chat_id.bytes text.bytes) = e)
    (he : e ≠ ESP_OK) :
    (tool_message_execute E input output size).status = e ∧
    lines (tool_message_execute E input output size).trace =
      [ascii "Error: failed to push message to outbound queue"] ∧
    (tool_message_execute E input output size).output =
      snprintf output size (ascii "Error: failed to push message to outbound queue") ∧
    pushes (tool_message_execute E input output size).trace =
      [(build_msg E channel.bytes chat_id.bytes text.bytes, e)] := by
  have hp : E.message_bus_push_outbound
      (build_msg E channel.bytes chat_id.bytes text.bytes) ≠ ESP_OK := by
    rw [hpush]; exact he
  rw [exec_wf_rejected E input output size channel chat_id text hparse hch hid htx halloc hp,
    hpush]
  simp only [res_rejected, pushes_validated, lines_validated, pushes, lines,
    line_push_failed, and_self]

/-- C6, on the example request with a queue answering `-1`. -/
theorem C6_witness :
    (tool_message_execute (sample_env (some req_example) true (-1)) [] buf128 128).status
      = -1 ∧
    cstr_of (tool_message_execute (sample_env (some req_example) true (-1)) []
        buf128 128).output
      = ascii "Error: failed to push message to outbound queue" := by
  have h := C6_rejection_is_propagated (sample_env (some req_example) true (-1)) []
    buf128 128 s_telegram s_42 s_hi (-1) rfl (by decide) (by decide) (by decide) rfl rfl
    (by decide)
  refine ⟨h.1, ?_⟩
  rw [h.2.2.1]
  decide

end ToolMessage

namespace ToolMessage

theorem status_ne_invalid_arg : ESP_ERR_INVALID_ARG ≠ ESP_OK := by decide

theorem status_ne_no_mem : ESP_ERR_NO_MEM ≠ ESP_OK := by decide

theorem line_invalid_channel_error (v : List Nat) :
    (line_invalid_channel v).take 7 = ascii "Error: " := by
  unfold line_invalid_channel
  rw [List.append_assoc, List.take_append_of_le_length (by decide)]
  decide

/-- C7: the call returns `ESP_OK` exactly when it submitted a message that the
queue accepted; when a stage fails (decoding, a rule of the validator, the
allocation) the status is not `ESP_OK`, the line begins with `Error: ` and the
queue is never called; the queue is called at most once in every case. -/
theorem C7_success_iff_accepted (E : Env) (input output : List Nat) (size : Nat) :
    ((tool_message_execute E input output size).status = ESP_OK ↔
      ∃ msg, (msg, ESP_OK) ∈ pushes (tool_message_execute E input output size).trace) ∧
    (stage_failure E input = true →
      (tool_message_execute E input output size).status ≠ ESP_OK ∧
      pushes (tool_message_execute E input output size).trace = [] ∧
      ∃ line, lines (tool_message_execute E input output size).trace = [line] ∧
        line.take 7 = ascii "Error: ") ∧
    (pushes (tool_message_execute E input output size).trace).length ≤ 1 := by
  refine exec_cases (fun res =>
    (res.status = ESP_OK ↔ ∃ msg, (msg, ESP_OK) ∈ pushes res.trace) ∧
    (stage_failure E input = true →
      res.status ≠ ESP_OK ∧ pushes res.trace = [] ∧
      ∃ line, lines res.trace = [line] ∧ line.take 7 = ascii "Error: ") ∧
    (pushes res.trace).length ≤ 1) E input output size ?_ ?_ ?_ ?_ ?_ ?_ ?_ ?_
  · intro _
    refine ⟨?_, fun _ => ⟨status_ne_invalid_arg, rfl, _, rfl, by decide⟩, Nat.zero_le 1⟩
    simp [res_parse_failed, pushes, status_ne_invalid_arg]
  · intro _ _ _
    refine ⟨?_, fun _ => ⟨status_ne_invalid_arg, rfl, _, rfl, by decide⟩, Nat.zero_le 1⟩
    simp [res_missing_channel, pushes, trace_decoded, status_ne_invalid_arg]
  · intro _ c _ _ _ _
    refine ⟨?_, fun _ => ⟨status_ne_invalid_arg, rfl, _, rfl,
      line_invalid_channel_error c.bytes⟩, Nat.zero_le 1⟩
    simp [res_invalid_channel, pushes, trace_decoded, status_ne_invalid_arg]
  · intro _ _ _ _ _
    refine ⟨?_, fun _ => ⟨status_ne_invalid_arg, rfl, _, rfl, by decide⟩, Nat.zero_le 1⟩
    simp [res_missing_chat_id, pushes, trace_decoded, status_ne_invalid_arg]
  · intro _ _ _ _ _ _
    refine ⟨?_, fun _ => ⟨status_ne_invalid_arg, rfl, _, rfl, by decide⟩, Nat.zero_le 1⟩
    simp [res_missing_text, pushes, trace_decoded, status_ne_invalid_arg]
  · intro _ _ _ _ _ _ _ _
    refine ⟨?_, fun _ => ⟨status_ne_no_mem, rfl, _, rfl, by decide⟩, Nat.zero_le 1⟩
    simp [res_no_mem, pushes, trace_decoded, trace_validated, status_ne_no_mem]
  · intro c i t hparse hch hid htx hm hp
    obtain ⟨h1, h2, h3, h4⟩ := wf_rules c i t hch hid htx
    refine ⟨?_, ?_, by simp [res_rejected, pushes_validated, pushes]⟩
    · simp only [res_rejected, pushes_validated, pushes, List.mem_singleton,
        Prod.mk.injEq]
      constructor
      · intro h; exact absurd h hp
      · rintro ⟨_, _, h⟩; exact absurd h.symm hp
    · intro hs
      simp only [request_of] at h1 h2 h3 h4
      simp [stage_failure, hparse, well_formed, h1, h2, h3, h4, request_of, hm] at hs
  · intro c i t hparse hch hid htx hm hp
    obtain ⟨h1, h2, h3, h4⟩ := wf_rules c i t hch hid htx
    refine ⟨?_, ?_, by simp [res_accepted, pushes_validated, pushes]⟩
    · simp [res_accepted, pushes_validated, pushes]
    · intro hs
      simp only [request_of] at h1 h2 h3 h4
      simp [stage_failure, hparse, well_formed, h1, h2, h3, h4, request_of, hm] at hs

/-- C7, on a payload that does not decode: a stage failure, reported with a
status other than `ESP_OK` and without any submission. -/
theorem C7_witness :
    (tool_message_execute (sample_env none true 0) [] buf128 128).status ≠ ESP_OK ∧
    pushes (tool_message_execute (sample_env none true 0) [] buf128 128).trace = [] :=
  ⟨((C7_success_iff_accepted (sample_env none true 0) [] buf128 128).2.1 rfl).1,
   ((C7_success_iff_accepted (sample_env none true 0) [] buf128 128).2.1 rfl).2.1⟩

/-- Every exit path formats one line, free of NUL bytes, into the buffer. -/
theorem exec_format (E : Env) (input output : List Nat) (size : Nat) :
    ∃ line, lines (tool_message_execute E input output size).trace = [line] ∧
      (tool_message_execute E input output size).output = snprintf output size line ∧
      ∀ x ∈ line, x ≠ 0 := by
  refine exec_cases (fun res => ∃ line, lines res.trace = [line] ∧
      res.output = snprintf output size line ∧ ∀ x ∈ line, x ≠ 0)
    E input output size ?_ ?_ ?_ ?_ ?_ ?_ ?_ ?_
  · intro _; exact ⟨_, rfl, rfl, by decide⟩
  · intro _ _ _; exact ⟨_, rfl, rfl, by decide⟩
  · intro _ c _ _ _ _
    refine ⟨_, rfl, rfl, ?_⟩
    intro x hx
    simp only [line_invalid_channel, List.mem_append] at hx
    rcases hx with (hx | hx) | hx
    · revert x; decide
    · exact c.nonul x hx
    · revert x; decide
  · intro _ _ _ _ _; exact ⟨_, rfl, rfl, by decide⟩
  · intro _ _ _ _ _ _; exact ⟨_, rfl, rfl, by decide⟩
  · intro _ _ _ _ _ _ _ _; exact ⟨_, rfl, rfl, by decide⟩
  · intro _ _ _ _ _ _ _ _ _; exact ⟨_, rfl, rfl, by decide⟩
  · intro c i t _ _ _ _ _ _
    refine ⟨_, rfl, rfl, ?_⟩
    intro x hx
    simp only [line_ok, List.mem_append] at hx
    rcases hx with (((((hx | hx) | hx) | hx) | hx) | hx) | hx
    · revert x; decide
    · exact c.nonul x hx
    · revert x; decide
    · exact i.nonul x hx
    · revert x; decide
    · rcases fmt_d_range _ x hx with h | h <;> omega
    · revert x; decide

/-- C8: for every input and capacity, the bytes written are the formatted line
cut to its first `output_size - 1` bytes followed by the terminator; they are
at most `output_size`, the buffer is unchanged from index `output_size` on,
and nothing is written when `output_size` is 0. -/
theorem C8_bounded_formatting (E : Env) (input output : List Nat) (size : Nat) :
    ∃ line, lines (tool_message_execute E input output size).trace = [line] ∧
      (tool_message_execute E input output size).output =
        snprintf_written size line ++ output.drop (snprintf_written size line).length ∧
      (snprintf_written size line).length ≤ size ∧
      (0 < size → snprintf_written size line = line.take (size - 1) ++ [0]) ∧
      (size = 0 → (tool_message_execute E input output size).output = output) ∧
      (tool_message_execute E input output size).output.drop size = output.drop size := by
  obtain ⟨line, hl, ho, _⟩ := exec_format E input output size
  refine ⟨line, hl, ho, snprintf_written_length size line, ?_, ?_, ?_⟩
  · intro h
    have h0 : size ≠ 0 := by omega
    simp [snprintf_written, h0]
  · intro h
    rw [ho, h, snprintf_zero]
  · rw [ho, snprintf_drop]

/-- C8, on the example request with a buffer capacity of 10: nine bytes of
the line and the terminator are stored, the rest of the buffer is untouched. -/
theorem C8_witness :
    (tool_message_execute (sample_env (some req_example) true 0) [] buf128 10).output
      = ascii "OK: messa" ++ [0] ++ List.replicate 118 7 := by
  obtain ⟨line, hl, ho, _⟩ :=
    C8_bounded_formatting (sample_env (some req_example) true 0) [] buf128 10
  have hline : lines (tool_message_execute (sample_env (some req_example) true 0) []
      buf128 10).trace = [ascii "OK: message sent to telegram chat_id=42 (2 bytes)"] := by
    decide
  rw [hline] at hl
  obtain rfl := List.head_eq_of_cons_eq hl
  rw [ho]
  decide

end ToolMessage

namespace ToolMessage

/-- C9: for a well-formed request the chat_id stored in the submitted message
is the first `min(len, capacity - 1)` bytes of the request's chat_id, and
likewise the channel; each stored string ends inside its field, which has
exactly the field's size; an over-long chat_id is no error: the message is
submitted and the call returns `ESP_OK` when the queue accepts. -/
theorem C9_truncation_policy (E : Env) (input output : List Nat) (size : Nat)
    (channel chat_id text : CStr)
    (hparse : E.cJSON_Parse input = some (request_of channel chat_id text))
    (hch : channel.bytes ∈ channel_set) (hid : chat_id.bytes ≠ [])
    (htx : text.bytes ≠ [])
    (hcs : 0 < E.channel_size) (his : 0 < E.chat_id_size)
    (halloc : E.malloc_ok (text.strlen + 1) = true)
    (hpush : E.message_bus_push_outbound
      (build_msg E channel.bytes chat_id.bytes text.bytes) = ESP_OK) :
    (tool_message_execute E input output size).status = ESP_OK ∧
    pushes (tool_message_execute E input output size).trace =
      [(build_msg E channel.bytes chat_id.bytes text.bytes, ESP_OK)] ∧
    cstr_of (build_msg E channel.bytes chat_id.bytes text.bytes).chat_id =
      chat_id.bytes.take (min chat_id.strlen (E.chat_id_size - 1)) ∧
    cstr_of (build_msg E channel.bytes chat_id.bytes text.bytes).channel =
      channel.bytes.take (min channel.strlen (E.channel_size - 1)) ∧
    (build_msg E channel.bytes chat_id.bytes text.bytes).chat_id.length = E.chat_id_size ∧
    (build_msg E channel.bytes chat_id.bytes text.bytes).channel.length = E.channel_size ∧
    (cstr_of (build_msg E channel.bytes chat_id.bytes text.bytes).chat_id).length
      < E.chat_id_size ∧
    (cstr_of (build_msg E channel.bytes chat_id.bytes text.bytes).channel).length
      < E.channel_size := by
  have hmin : ∀ (l : List Nat) (n : Nat), l.take (min l.length n) = l.take n := by
    intro l n
    rcases Nat.le_total l.length n with h | h
    · rw [Nat.min_eq_left h, List.take_of_length_le (Nat.le_refl _),
        List.take_of_length_le h]
    · rw [Nat.min_eq_right h]
  have e1 : cstr_of (build_msg E channel.bytes chat_id.bytes text.bytes).chat_id =
      chat_id.bytes.take (E.chat_id_size - 1) := stored_chat_id E channel chat_id text his
  have e2 : cstr_of (build_msg E channel.bytes chat_id.bytes text.bytes).channel =
      channel.bytes.take (E.channel_size - 1) := by
    simp only [build_msg]
    exact cstr_of_strncpy _ _ hcs channel.nonul
  rw [exec_wf_accepted E input output size channel chat_id text hparse hch hid htx halloc
    hpush]
  refine ⟨rfl, rfl, ?_, ?_, ?_, ?_, ?_, ?_⟩
  · rw [e1]; exact (hmin _ _).symm
  · rw [e2]; exact (hmin _ _).symm
  · exact strncpy_length _ _ his
  · exact strncpy_length _ _ hcs
  · rw [e1, List.length_take]; omega
  · rw [e2, List.length_take]; omega

/-- C9, on a chat_id of 40 bytes and a field of 32: the call succeeds and the
message stores the first 31 bytes. -/
theorem C9_witness :
    (tool_message_execute
        (sample_env (some (request_of s_telegram s_long s_hi)) true 0) []
        buf128 128).status = ESP_OK ∧
    cstr_of (build_msg (sample_env (some (request_of s_telegram s_long s_hi)) true 0)
        s_telegram.bytes s_long.bytes s_hi.bytes).chat_id = List.replicate 31 97 := by
  have h := C9_truncation_policy
    (sample_env (some (request_of s_telegram s_long s_hi)) true 0) [] buf128 128
    s_telegram s_long s_hi rfl (by decide) (by decide) (by decide) (by decide) (by decide)
    rfl rfl
  exact ⟨h.1, h.2.2.1.trans (by decide)⟩

/-- C10: when `content` was allocated, the queue is called once; `content` is
freed exactly once if the queue rejected the message and never if it accepted;
after an accepted submission no statement reads, hands off or frees `content`,
and no formatted line takes `msg.content` as an argument (the byte count of
the success line comes from the request text). -/
theorem C10_content_ownership (E : Env) (input output : List Nat) (size : Nat)
    (halloc : Event.strdup true ∈ (tool_message_execute E input output size).trace) :
    ∃ msg ret, pushes (tool_message_execute E input output size).trace = [(msg, ret)] ∧
      frees (tool_message_execute E input output size).trace
        = (if ret = ESP_OK then 0 else 1) ∧
      (∀ e ∈ after_accept (tool_message_execute E input output size).trace,
        e.uses_content = false) ∧
      (∀ args line,
        Event.snprintf args line ∈ (tool_message_execute E input output size).trace →
        Operand.msg_content ∉ args) := by
  revert halloc
  refine exec_cases (fun res => Event.strdup true ∈ res.trace →
    ∃ msg ret, pushes res.trace = [(msg, ret)] ∧
      frees res.trace = (if ret = ESP_OK then 0 else 1) ∧
      (∀ e ∈ after_accept res.trace, e.uses_content = false) ∧
      (∀ args line, Event.snprintf args line ∈ res.trace → Operand.msg_content ∉ args))
    E input output size ?_ ?_ ?_ ?_ ?_ ?_ ?_ ?_
  · intro _ h; simp [res_parse_failed] at h
  · intro _ _ _ h; simp [res_missing_channel, trace_decoded] at h
  · intro _ _ _ _ _ _ h; simp [res_invalid_channel, trace_decoded] at h
  · intro _ _ _ _ _ h; simp [res_missing_chat_id, trace_decoded] at h
  · intro _ _ _ _ _ _ h; simp [res_missing_text, trace_decoded] at h
  · intro _ _ _ _ _ _ _ _ h; simp [res_no_mem, trace_decoded, trace_validated] at h
  · intro c i t _ _ _ _ _ hp _
    refine ⟨_, _, rfl, ?_, ?_, ?_⟩
    · simp [res_rejected, frees_validated, frees, hp]
    · simp [res_rejected, trace_validated, trace_decoded, after_accept, hp]
    · intro args line h
      simp [res_rejected, trace_validated, trace_decoded] at h
      simp [h.1]
  · intro c i t _ _ _ _ _ hp _
    refine ⟨_, _, rfl, ?_, ?_, ?_⟩
    · simp [res_accepted, frees_validated, frees]
    · simp [res_accepted, trace_validated, trace_decoded, after_accept, Event.uses_content]
    · intro args line h
      simp [res_accepted, trace_validated, trace_decoded] at h
      simp [h.1]

/-- C10, on the example request with a queue answering `-1`: the body is
freed exactly once. -/
theorem C10_witness :
    frees (tool_message_execute (sample_env (some req_example) true (-1)) []
      buf128 128).trace = 1 := by
  obtain ⟨msg, ret, hp, hf, _⟩ := C10_content_ownership
    (sample_env (some req_example) true (-1)) [] buf128 128 (by decide)
  have hp2 : pushes (tool_message_execute (sample_env (some req_example) true (-1)) []
      buf128 128).trace =
      [(build_msg (sample_env (some req_example) true (-1)) s_telegram.bytes s_42.bytes
        s_hi.bytes, -1)] := by decide
  have hret : ret = -1 := by
    have h := hp2.symm.trans hp
    simp only [List.cons.injEq, Prod.mk.injEq, and_true] at h
    exact h.2.symm
  rw [hf, hret]
  decide

/-- C11: when the decoder fails the call returns `ESP_ERR_INVALID_ARG`,
formats `Error: invalid JSON input`, looks up and reads no field, and submits
nothing. -/
theorem C11_decode_failure (E : Env) (input output : List Nat) (size : Nat)
    (hparse : E.cJSON_Parse input = none) :
    (tool_message_execute E input output size).status = ESP_ERR_INVALID_ARG ∧
    lines (tool_message_execute E input output size).trace =
      [ascii "Error: invalid JSON input"] ∧
    (tool_message_execute E input output size).output =
      snprintf output size (ascii "Error: invalid JSON input") ∧
    (∀ e ∈ (tool_message_execute E input output size).trace, e.reads_record = false) ∧
    pushes (tool_message_execute E input output size).trace = [] := by
  rw [exec_parse_failed E input output size hparse]
  refine ⟨rfl, rfl, rfl, ?_, rfl⟩
  intro e he
  simp only [res_parse_failed, List.mem_cons, List.mem_singleton, List.not_mem_nil,
    or_false] at he
  rcases he with rfl | rfl <;> rfl

/-- C11, on the example of the specification: an unparseable payload gives
`Error: invalid JSON input`. -/
theorem C11_witness :
    (tool_message_execute (sample_env none true 0) (ascii "not json") buf128 128).status
      = ESP_ERR_INVALID_ARG ∧
    cstr_of (tool_message_execute (sample_env none true 0) (ascii "not json")
      buf128 128).output = ascii "Error: invalid JSON input" := by
  have h := C11_decode_failure (sample_env none true 0) (ascii "not json") buf128 128 rfl
  refine ⟨h.1, ?_⟩
  rw [h.2.2.1]
  decide

/-- C12: when the copy of the text of a well-formed request cannot be
allocated, the call returns `ESP_ERR_NO_MEM`, formats `Error: out of memory`
and never calls the queue. -/
theorem C12_allocation_failure (E : Env) (input output : List Nat) (size : Nat)
    (channel chat_id text : CStr)
    (hparse : E.cJSON_Parse input = some (request_of channel chat_id text))
    (hch : channel.bytes ∈ channel_set) (hid : chat_id.bytes ≠ [])
    (htx : text.bytes ≠ [])
    (halloc : E.malloc_ok (text.strlen + 1) = false) :
    (tool_message_execute E input output size).status = ESP_ERR_NO_MEM ∧
    lines (tool_message_execute E input output size).trace = [ascii "Error: out of memory"] ∧
    (tool_message_execute E input output size).output =
      snprintf output size (ascii "Error: out of memory") ∧
    pushes (tool_message_execute E input output size).trace = [] := by
  rw [exec_wf_no_mem E input output size channel chat_id text hparse hch hid htx halloc]
  exact ⟨rfl, rfl, rfl, rfl⟩

/-- C12, on the example request with a failing allocator. -/
theorem C12_witness :
    (tool_message_execute (sample_env (some req_example) false 0) [] buf128 128).status
      = ESP_ERR_NO_MEM ∧
    cstr_of (tool_message_execute (sample_env (some req_example) false 0) []
      buf128 128).output = ascii "Error: out of memory" := by
  have h := C12_allocation_failure (sample_env (some req_example) false 0) [] buf128 128
    s_telegram s_42 s_hi rfl (by decide) (by decide) (by decide) rfl
  refine ⟨h.1, ?_⟩
  rw [h.2.2.1]
  decide

end ToolMessage

namespace ToolMessage

/-- C13: `validate_channel` accepts exactly the strings `telegram`,
`websocket` and `feishu`, compared byte for byte; it rejects the null pointer,
the empty string, a name in another letter case and a name with surrounding
blanks; the names it compares with, joined by `, `, are the list printed in
the invalid-channel diagnostic. -/
theorem C13_validate_channel_closed_set :
    (∀ c : CStr, validate_channel (some c) = true ↔
      (c.bytes = ascii "telegram" ∨ c.bytes = ascii "websocket" ∨
        c.bytes = ascii "feishu")) ∧
    validate_channel none = false ∧
    validate_channel (some s_empty) = false ∧
    validate_channel (some s_Telegram) = false ∧
    validate_channel (some s_telegram_padded) = false ∧
    (∀ v, line_invalid_channel v =
      ascii "Error: invalid channel '" ++ v ++ ascii "'. Must be one of: " ++
        List.intercalate (ascii ", ")
          [MIMI_CHAN_TELEGRAM, MIMI_CHAN_WEBSOCKET, MIMI_CHAN_FEISHU]) := by
  refine ⟨?_, rfl, by decide, by decide, by decide, ?_⟩
  · intro c
    rw [validate_channel_eq]
    simp [in_channel_set, channel_set]
  · intro v
    have h : ascii "'. Must be one of: telegram, websocket, feishu" =
        ascii "'. Must be one of: " ++ List.intercalate (ascii ", ")
          [MIMI_CHAN_TELEGRAM, MIMI_CHAN_WEBSOCKET, MIMI_CHAN_FEISHU] := by decide
    rw [line_invalid_channel, h, List.append_assoc, List.append_assoc, List.append_assoc]

/-- C14, refuted as stated: a line feed inside the chat_id of a well-formed
request reaches the success line, and one inside the channel reaches the
invalid-channel diagnostic. -/
theorem C14_counterexample :
    10 ∈ cstr_of (tool_message_execute
      (sample_env (some (request_of s_telegram s_two_lines s_hi)) true 0) []
      buf128 128).output ∧
    10 ∈ cstr_of (tool_message_execute
      (sample_env (some (request_of s_two_lines s_42 s_hi)) true 0) []
      buf128 128).output := by
  decide

/-- C14 (amended): for every input and every outcome the call formats exactly
one message into the output buffer; that message contains no line-break
character whenever the channel and the chat_id of the decoded request contain
none. -/
theorem C14_one_message_amended (E : Env) (input output : List Nat) (size : Nat) :
    ∃ line, lines (tool_message_execute E input output size).trace = [line] ∧
      (tool_message_execute E input output size).output = snprintf output size line ∧
      ((∀ r, E.cJSON_Parse input = some r →
          (∀ b ∈ str_arg r.channel, is_line_break b = false) ∧
          (∀ b ∈ str_arg r.chat_id, is_line_break b = false)) →
        ∀ b ∈ line, is_line_break b = false) := by
  refine exec_cases (fun res =>
    ∃ line, lines res.trace = [line] ∧ res.output = snprintf output size line ∧
      ((∀ r, E.cJSON_Parse input = some r →
          (∀ b ∈ str_arg r.channel, is_line_break b = false) ∧
          (∀ b ∈ str_arg r.chat_id, is_line_break b = false)) →
        ∀ b ∈ line, is_line_break b = false)) E input output size ?_ ?_ ?_ ?_ ?_ ?_ ?_ ?_
  · intro _; exact ⟨_, rfl, rfl, fun _ => by decide⟩
  · intro _ _ _; exact ⟨_, rfl, rfl, fun _ => by decide⟩
  · intro r c hparse hc _ _
    refine ⟨_, rfl, rfl, ?_⟩
    intro hclean x hx
    have hcl := (hclean r hparse).1
    simp only [hc, str_arg] at hcl
    simp only [line_invalid_channel, List.mem_append] at hx
    rcases hx with (hx | hx) | hx
    · revert x; decide
    · exact hcl x hx
    · revert x; decide
  · intro _ _ _ _ _; exact ⟨_, rfl, rfl, fun _ => by decide⟩
  · intro _ _ _ _ _ _; exact ⟨_, rfl, rfl, fun _ => by decide⟩
  · intro _ _ _ _ _ _ _ _; exact ⟨_, rfl, rfl, fun _ => by decide⟩
  · intro _ _ _ _ _ _ _ _ _; exact ⟨_, rfl, rfl, fun _ => by decide⟩
  · intro c i t hparse _ _ _ _ _
    refine ⟨_, rfl, rfl, ?_⟩
    intro hclean x hx
    obtain ⟨hcl, hil⟩ := hclean _ hparse
    simp only [request_of, str_arg] at hcl hil
    simp only [line_ok, List.mem_append] at hx
    rcases hx with (((((hx | hx) | hx) | hx) | hx) | hx) | hx
    · revert x; decide
    · exact hcl x hx
    · revert x; decide
    · exact hil x hx
    · revert x; decide
    · have hr := fmt_d_range _ x hx
      have h10 : x ≠ 10 := by omega
      have h13 : x ≠ 13 := by omega
      simp [is_line_break, h10, h13]
    · revert x; decide

/-- C14 (amended), on the example request: the one message formatted is the
success line, which has no line break. -/
theorem C14_amended_witness :
    lines (tool_message_execute (sample_env (some req_example) true 0) []
      buf128 128).trace = [ascii "OK: message sent to telegram chat_id=42 (2 bytes)"] ∧
    (ascii "OK: message sent to telegram chat_id=42 (2 bytes)").all
      (fun b => !is_line_break b) = true := by
  obtain ⟨line, hl, _, hb⟩ :=
    C14_one_message_amended (sample_env (some req_example) true 0) [] buf128 128
  have hclean : ∀ r, (sample_env (some req_example) true 0).cJSON_Parse [] = some r →
      (∀ b ∈ str_arg r.channel, is_line_break b = false) ∧
      (∀ b ∈ str_arg r.chat_id, is_line_break b = false) := by
    intro r h
    have hr : r = req_example := (Option.some.inj h).symm
    subst hr
    exact ⟨(by decide), (by decide)⟩
  have hline : lines (tool_message_execute (sample_env (some req_example) true 0) []
      buf128 128).trace = [ascii "OK: message sent to telegram chat_id=42 (2 bytes)"] := by
    decide
  rw [hline] at hl
  obtain rfl := List.head_eq_of_cons_eq hl
  refine ⟨hline, ?_⟩
  rw [List.all_eq_true]
  intro b hbm
  simp [hb hclean b hbm]

/-- C15: when the payload decodes, `cJSON_Delete` is called exactly once on
every exit path and no statement after it reads the record; when decoding
fails it is not called. -/
theorem C15_record_released_once (E : Env) (input output : List Nat) (size : Nat) :
    ((E.cJSON_Parse input).isSome = true →
      deletes (tool_message_execute E input output size).trace = 1 ∧
      ∀ e ∈ after_delete (tool_message_execute E input output size).trace,
        e.reads_record = false) ∧
    (E.cJSON_Parse input = none →
      deletes (tool_message_execute E input output size).trace = 0) := by
  refine exec_cases (fun res =>
    ((E.cJSON_Parse input).isSome = true →
      deletes res.trace = 1 ∧ ∀ e ∈ after_delete res.trace, e.reads_record = false) ∧
    (E.cJSON_Parse input = none → deletes res.trace = 0))
    E input output size ?_ ?_ ?_ ?_ ?_ ?_ ?_ ?_
  · intro h
    exact ⟨fun hs => (by rw [h] at hs; cases hs), fun _ => rfl⟩
  · intro _ h _
    exact ⟨fun _ => ⟨rfl, (by simp [res_missing_channel, trace_decoded, after_delete])⟩,
      fun hn => (by rw [hn] at h; cases h)⟩
  · intro _ _ h _ _ _
    exact ⟨fun _ => ⟨rfl, (by simp [res_invalid_channel, trace_decoded, after_delete])⟩,
      fun hn => (by rw [hn] at h; cases h)⟩
  · intro _ h _ _ _
    exact ⟨fun _ => ⟨rfl, (by simp [res_missing_chat_id, trace_decoded, after_delete])⟩,
      fun hn => (by rw [hn] at h; cases h)⟩
  · intro _ h _ _ _ _
    exact ⟨fun _ => ⟨rfl, (by simp [res_missing_text, trace_decoded, after_delete])⟩,
      fun hn => (by rw [hn] at h; cases h)⟩
  · intro _ _ _ h _ _ _ _
    exact ⟨fun _ => ⟨rfl,
        (by simp [res_no_mem, trace_validated, trace_decoded, after_delete])⟩,
      fun hn => (by rw [hn] at h; cases h)⟩
  · intro _ _ _ h _ _ _ _ _
    exact ⟨fun _ => ⟨rfl,
        (by simp [res_rejected, trace_validated, trace_decoded, after_delete])⟩,
      fun hn => (by rw [hn] at h; cases h)⟩
  · intro _ _ _ h _ _ _ _ _
    exact ⟨fun _ => ⟨rfl,
        (by simp [res_accepted, trace_validated, trace_decoded, after_delete])⟩,
      fun hn => (by rw [hn] at h; cases h)⟩

/-- C15, on the example request: one release, as the last statement. -/
theorem C15_witness :
    deletes (tool_message_execute (sample_env (some req_example) true 0) []
      buf128 128).trace = 1 ∧
    after_delete (tool_message_execute (sample_env (some req_example) true 0) []
      buf128 128).trace = [] :=
  ⟨((C15_record_released_once (sample_env (some req_example) true 0) [] buf128 128).1 rfl).1,
   by decide⟩

end ToolMessage

namespace ToolMessage

/-- C17: the success line is built from the request's channel and chat_id as
they were received. When the chat_id is shorter than its field (and the field
of the channel has room for every channel name) the line names exactly the
channel and chat_id stored in the submitted message; when the chat_id is at
least as long as its field the chat_id named in the line differs from the one
stored in the message. -/
theorem C17_success_line_and_message (E : Env) (input output : List Nat) (size : Nat)
    (channel chat_id text : CStr)
    (hparse : E.cJSON_Parse input = some (request_of channel chat_id text))
    (hch : channel.bytes ∈ channel_set) (hid : chat_id.bytes ≠ [])
    (htx : text.bytes ≠ [])
    (hcs : 10 ≤ E.channel_size) (his : 0 < E.chat_id_size)
    (halloc : E.malloc_ok (text.strlen + 1) = true)
    (hpush : E.message_bus_push_outbound
      (build_msg E channel.bytes chat_id.bytes text.bytes) = ESP_OK) :
    pushes (tool_message_execute E input output size).trace =
      [(build_msg E channel.bytes chat_id.bytes text.bytes, ESP_OK)] ∧
    lines (tool_message_execute E input output size).trace =
      [ascii "OK: message sent to " ++ channel.bytes ++ ascii " chat_id=" ++
        chat_id.bytes ++ ascii " (" ++ fmt_d (int_of_size text.strlen) ++
        ascii " bytes)"] ∧
    (chat_id.strlen < E.chat_id_size →
      cstr_of (build_msg E channel.bytes chat_id.bytes text.bytes).channel
        = channel.bytes ∧
      cstr_of (build_msg E channel.bytes chat_id.bytes text.bytes).chat_id
        = chat_id.bytes) ∧
    (E.chat_id_size ≤ chat_id.strlen →
      cstr_of (build_msg E channel.bytes chat_id.bytes text.bytes).chat_id
        ≠ chat_id.bytes) := by
  have hl := channel_set_length _ hch
  have e1 := stored_channel E channel chat_id text (by simp only [CStr.strlen]; omega)
  have e2 := stored_chat_id E channel chat_id text his
  rw [exec_wf_accepted E input output size channel chat_id text hparse hch hid htx halloc
    hpush]
  refine ⟨rfl, rfl, ?_, ?_⟩
  · intro h
    refine ⟨e1, ?_⟩
    rw [e2]
    exact List.take_of_length_le (by simp only [CStr.strlen] at h; omega)
  · intro h heq
    rw [e2] at heq
    have hlen := congrArg List.length heq
    simp only [List.length_take, CStr.strlen] at hlen h
    omega

/-- C17, on a chat_id of 40 bytes and a field of 32: the success line names
the 40 bytes while the message delivered holds 31 of them. -/
theorem C17_witness :
    lines (tool_message_execute
        (sample_env (some (request_of s_telegram s_long s_hi)) true 0) []
        buf128 128).trace =
      [ascii "OK: message sent to telegram chat_id=" ++ List.replicate 40 97 ++
        ascii " (2 bytes)"] ∧
    cstr_of (build_msg (sample_env (some (request_of s_telegram s_long s_hi)) true 0)
        s_telegram.bytes s_long.bytes s_hi.bytes).chat_id ≠ List.replicate 40 97 := by
  have h := C17_success_line_and_message
    (sample_env (some (request_of s_telegram s_long s_hi)) true 0) [] buf128 128
    s_telegram s_long s_hi rfl (by decide) (by decide) (by decide) (by decide) (by decide)
    rfl rfl
  exact ⟨h.2.1.trans (by decide), h.2.2.2 (by decide)⟩

end ToolMessage
